import Mathlib

/-!
Verification of the `demoplace` π-computation programs.

`src/pi_solver.py` computes π with the Gauss-Legendre (Brent-Salamin)
algorithm over Python's `decimal` arithmetic: every arithmetic operation is
performed exactly and then rounded to the context precision (a number of
significant decimal digits) with the default rounding mode ROUND_HALF_EVEN
(round to nearest, ties to even); `Decimal.sqrt` returns the correctly
rounded square root.  We embed decimal values by their exact rational
values, represented as an integer numerator and a positive natural
denominator, and each `decimal` operation as the exact rational operation
followed by rounding to the context's number of significant digits under
the context's rounding mode.  A decimal context is embedded by its
precision and rounding mode (`PyContext`); `localcontext()` copies both,
and `gauss_legendre_pi` overwrites only the precision of the copy, so the
ambient rounding mode — but not the ambient precision — flows into the
computation.  `Decimal.sqrt` is always correctly rounded with
ROUND_HALF_EVEN, independent of the context's rounding mode.

`src/calculate_pi.py` and `src/calc_pi.py` contain two Nilakantha-series
baselines; they are embedded over ℚ at the end of the definitions section.
-/

set_option maxRecDepth 40000

/-- Exact value of a Python `Decimal`: numerator and (positive) denominator. -/
structure Dec where
  n : Int
  d : Nat
deriving DecidableEq

/-- Rational value of an embedded decimal. -/
def Dec.val (x : Dec) : ℚ := (x.n : ℚ) / (x.d : ℚ)

/-- Exact addition of the underlying rational values. -/
def dAdd (x y : Dec) : Dec := ⟨x.n * y.d + y.n * x.d, x.d * y.d⟩

/-- Exact subtraction of the underlying rational values. -/
def dSub (x y : Dec) : Dec := ⟨x.n * y.d - y.n * x.d, x.d * y.d⟩

/-- Exact multiplication of the underlying rational values. -/
def dMul (x y : Dec) : Dec := ⟨x.n * y.n, x.d * y.d⟩

/-- Exact division of the underlying rational values (0 for division by 0,
which the embedded program never performs). -/
def dDiv (x y : Dec) : Dec :=
  if y.n < 0 then ⟨-(x.n * y.d), x.d * (-y.n).toNat⟩
  else ⟨x.n * y.d, x.d * y.n.toNat⟩

/-- Exact absolute value, as in Python `abs` on `Decimal`. -/
def dAbs (x : Dec) : Dec := ⟨(x.n.natAbs : Int), x.d⟩

/-- Exact value comparison `x < y`, as Python compares `Decimal`s. -/
def dLt (x y : Dec) : Bool := decide (x.n * y.d < y.n * x.d)

/-- Number of decimal digits of a natural number, by fueled division by 10
(fuel 800 covers every number below 10^800, far beyond all uses here). -/
def numDigitsAux : Nat → Nat → Nat
  | 0, _ => 0
  | fuel+1, m => if m < 10 then 1 else numDigitsAux fuel (m / 10) + 1

/-- Number of decimal digits of a natural number. -/
def numDigits (m : Nat) : Nat := numDigitsAux 800 m

/-- The power `10 ^ k`. -/
def pow10 (k : Nat) : Nat := 10 ^ k

/-- Round the fraction `a / b` to a natural number, half to even
(`b` positive; this is `decimal`'s default rounding ROUND_HALF_EVEN). -/
def rhe (a b : Nat) : Nat :=
  let q := a / b
  let r := a % b
  if 2 * r < b then q
  else if b < 2 * r then q + 1
  else if q % 2 = 0 then q else q + 1

/-- The rounding modes a Python `decimal` context can carry. -/
inductive RoundingMode where
  | halfEven
  | halfUp
  | halfDown
  | floor
  | ceiling
  | up
  | down
  | zeroFiveUp
deriving DecidableEq

/-- Round the nonnegative fraction `a / b` to a natural number under
`mode`, where `neg` says the decimal being rounded is negative (`b`
positive).  This matches Python `decimal`'s rounding functions applied to
the magnitude: ROUND_HALF_EVEN ties to even; ROUND_HALF_UP ties away from
zero; ROUND_HALF_DOWN ties toward zero; ROUND_FLOOR toward −∞ (so the
magnitude of a negative number rounds up); ROUND_CEILING toward +∞;
ROUND_UP away from zero; ROUND_DOWN toward zero; ROUND_05UP away from zero
exactly when the truncated result would end in 0 or 5. -/
def roundInt (mode : RoundingMode) (neg : Bool) (a b : Nat) : Nat :=
  let q := a / b
  let r := a % b
  match mode with
  | .halfEven => rhe a b
  | .halfUp => if 2 * r < b then q else q + 1
  | .halfDown => if b < 2 * r then q + 1 else q
  | .floor => if neg then (if r = 0 then q else q + 1) else q
  | .ceiling => if neg then q else (if r = 0 then q else q + 1)
  | .up => if r = 0 then q else q + 1
  | .down => q
  | .zeroFiveUp => if r = 0 then q else (if q % 10 = 0 ∨ q % 10 = 5 then q + 1 else q)

/-- The floor of `log10 (a / b)` for positive `a`, `b`: the unique `e` with
`10 ^ e ≤ a / b < 10 ^ (e+1)`. -/
def fl10 (a b : Nat) : Int :=
  let e0 : Int := (numDigits a : Int) - (numDigits b : Int)
  if 0 ≤ e0 then (if b * pow10 e0.toNat ≤ a then e0 else e0 - 1)
  else (if b ≤ a * pow10 (-e0).toNat then e0 else e0 - 1)

/-- The fraction `(a / b) / 10 ^ k` as a numerator/denominator pair. -/
def scaleDown (a b : Nat) (k : Int) : Nat × Nat :=
  if 0 ≤ k then (a, b * pow10 k.toNat) else (a * pow10 (-k).toNat, b)

/-- Assemble the decimal `± m · 10 ^ k` from sign, coefficient and exponent. -/
def mkDec (neg : Bool) (m : Nat) (k : Int) : Dec :=
  let mag : Dec := if 0 ≤ k then ⟨(m * pow10 k.toNat : Nat), 1⟩ else ⟨(m : Nat), pow10 (-k).toNat⟩
  if neg then ⟨-mag.n, mag.d⟩ else mag

/-- Round a decimal value to `p` significant digits under rounding mode
`mode`: the rounding Python's `decimal` applies to every arithmetic result
under a context with precision `p` and rounding `mode`. -/
def roundDecM (mode : RoundingMode) (p : Nat) (x : Dec) : Dec :=
  let a := x.n.natAbs
  let b := x.d
  if a = 0 then ⟨0, 1⟩ else
  let e := fl10 a b
  let k := e - (p : Int) + 1
  let s := scaleDown a b k
  mkDec (x.n < 0) (roundInt mode (x.n < 0) s.1 s.2) k

/-- Round a decimal value to `p` significant digits under the default
rounding mode ROUND_HALF_EVEN. -/
def roundDec (p : Nat) (x : Dec) : Dec := roundDecM RoundingMode.halfEven p x

/-- Integer square root by Newton iteration from an upper initial guess,
with fuel (200 steps cover every number below 10^800). -/
def isqrtAux : Nat → Nat → Nat → Nat
  | 0, _, g => g
  | fuel+1, m, g =>
    let g2 := (g + m / g) / 2
    if g2 < g then isqrtAux fuel m g2 else g

/-- Integer square root (floor of the real square root). -/
def isqrt (m : Nat) : Nat :=
  if m ≤ 1 then m else isqrtAux 200 m (pow10 ((numDigits m + 1) / 2))

/-- The floor of `e / 2` on integers. -/
def halfFloor (e : Int) : Int :=
  if 0 ≤ e then (e.toNat / 2 : Nat) else -((((-e).toNat + 1) / 2 : Nat))

/-- Square root of a decimal, correctly rounded to `p` significant digits,
ties to even: the semantics of Python's `Decimal.sqrt` under a context with
precision `p` (0 on nonpositive input, which the program never takes). -/
def decSqrt (p : Nat) (x : Dec) : Dec :=
  if x.n ≤ 0 then ⟨0, 1⟩ else
  let a := x.n.natAbs
  let b := x.d
  let e := fl10 a b
  let k := halfFloor e - (p : Int) + 1
  let s := scaleDown a b (2 * k)
  let m0 := isqrt (s.1 * s.2) / s.2
  let m :=
    if (2 * m0 + 1) ^ 2 * s.2 < 4 * s.1 then m0 + 1
    else if 4 * s.1 < (2 * m0 + 1) ^ 2 * s.2 then m0
    else if m0 % 2 = 0 then m0 else m0 + 1
  mkDec false m k

/-- Python `x + y` on `Decimal` under precision `prec`. -/
def ctxAdd (prec : Nat) (x y : Dec) : Dec := roundDec prec (dAdd x y)

/-- Python `x - y` on `Decimal` under precision `prec`. -/
def ctxSub (prec : Nat) (x y : Dec) : Dec := roundDec prec (dSub x y)

/-- Python `x * y` on `Decimal` under precision `prec`. -/
def ctxMul (prec : Nat) (x y : Dec) : Dec := roundDec prec (dMul x y)

/-- Python `x / y` on `Decimal` under precision `prec`. -/
def ctxDiv (prec : Nat) (x y : Dec) : Dec := roundDec prec (dDiv x y)

/-- Python `x ** 2` on `Decimal` under precision `prec`. -/
def ctxSq (prec : Nat) (x : Dec) : Dec := roundDec prec (dMul x x)

/-- Python `x + y` on `Decimal` under precision `prec` and rounding `mode`. -/
def ctxAddM (mode : RoundingMode) (prec : Nat) (x y : Dec) : Dec :=
  roundDecM mode prec (dAdd x y)

/-- Python `x - y` on `Decimal` under precision `prec` and rounding `mode`. -/
def ctxSubM (mode : RoundingMode) (prec : Nat) (x y : Dec) : Dec :=
  roundDecM mode prec (dSub x y)

/-- Python `x * y` on `Decimal` under precision `prec` and rounding `mode`. -/
def ctxMulM (mode : RoundingMode) (prec : Nat) (x y : Dec) : Dec :=
  roundDecM mode prec (dMul x y)

/-- Python `x / y` on `Decimal` under precision `prec` and rounding `mode`. -/
def ctxDivM (mode : RoundingMode) (prec : Nat) (x y : Dec) : Dec :=
  roundDecM mode prec (dDiv x y)

/-- Python `x ** 2` on `Decimal` under precision `prec` and rounding `mode`. -/
def ctxSqM (mode : RoundingMode) (prec : Nat) (x : Dec) : Dec :=
  roundDecM mode prec (dMul x x)

/-- The iteration state of `gauss_legendre_pi`: the local variables
`a`, `b`, `t`, `p` of the loop in `src/pi_solver.py`. -/
structure GLState where
  a : Dec
  b : Dec
  t : Dec
  p : Dec
deriving DecidableEq

/-- Initial state of `gauss_legendre_pi`'s loop:
`a = Decimal(1)`, `b = Decimal(1) / Decimal(2).sqrt()`,
`t = Decimal("0.25")`, `p = Decimal(1)` (`src/pi_solver.py` lines 29-32). -/
def glInit (prec : Nat) : GLState :=
  ⟨⟨1, 1⟩, ctxDiv prec ⟨1, 1⟩ (decSqrt prec ⟨2, 1⟩), ⟨25, 100⟩, ⟨1, 1⟩⟩

/-- One iteration of `gauss_legendre_pi`'s loop body
(`src/pi_solver.py` lines 37-41):
`a_next = (a + b) / 2`; `b = (a * b).sqrt()`;
`t -= p * (a - a_next) ** 2`; `a = a_next`; `p *= 2`. -/
def glStep (prec : Nat) (s : GLState) : GLState :=
  let a_next := ctxDiv prec (ctxAdd prec s.a s.b) ⟨2, 1⟩
  ⟨a_next,
   decSqrt prec (ctxMul prec s.a s.b),
   ctxSub prec s.t (ctxMul prec s.p (ctxSq prec (ctxSub prec s.a a_next))),
   ctxMul prec s.p ⟨2, 1⟩⟩

/-- The value of `threshold = Decimal(10) ** (-(digits + 2))`
(`src/pi_solver.py` line 34): exactly `10 ^ -(digits+2)`. -/
def glThreshold (digits : Nat) : Dec := ⟨1, pow10 (digits + 2)⟩

/-- The loop's exit test `abs(a - b) < threshold`
(`src/pi_solver.py` line 45). -/
def glStop (prec : Nat) (thr : Dec) (s : GLState) : Bool :=
  dLt (dAbs (ctxSub prec s.a s.b)) thr

/-- The estimate `pi_estimate = ((a + b) ** 2) / (4 * t)` computed each
iteration (`src/pi_solver.py` line 43). -/
def glEstimate (prec : Nat) (s : GLState) : Dec :=
  ctxDiv prec (ctxSq prec (ctxAdd prec s.a s.b)) (ctxMul prec ⟨4, 1⟩ s.t)

/-- `glInit` generalized over the rounding mode the context inherited:
`a = Decimal(1)`, `b = Decimal(1) / Decimal(2).sqrt()` (the division rounds
under `mode`; the square root is always half-even), `t = Decimal("0.25")`,
`p = Decimal(1)`. -/
def glInitM (mode : RoundingMode) (prec : Nat) : GLState :=
  ⟨⟨1, 1⟩, ctxDivM mode prec ⟨1, 1⟩ (decSqrt prec ⟨2, 1⟩), ⟨25, 100⟩, ⟨1, 1⟩⟩

/-- `glStep` generalized over the rounding mode the context inherited
(every operation except the square root rounds under `mode`). -/
def glStepM (mode : RoundingMode) (prec : Nat) (s : GLState) : GLState :=
  let a_next := ctxDivM mode prec (ctxAddM mode prec s.a s.b) ⟨2, 1⟩
  ⟨a_next,
   decSqrt prec (ctxMulM mode prec s.a s.b),
   ctxSubM mode prec s.t (ctxMulM mode prec s.p (ctxSqM mode prec (ctxSubM mode prec s.a a_next))),
   ctxMulM mode prec s.p ⟨2, 1⟩⟩

/-- `glStop` generalized over the rounding mode the context inherited. -/
def glStopM (mode : RoundingMode) (prec : Nat) (thr : Dec) (s : GLState) : Bool :=
  dLt (dAbs (ctxSubM mode prec s.a s.b)) thr

/-- `glEstimate` generalized over the rounding mode the context
inherited. -/
def glEstimateM (mode : RoundingMode) (prec : Nat) (s : GLState) : Dec :=
  ctxDivM mode prec (ctxSqM mode prec (ctxAddM mode prec s.a s.b)) (ctxMulM mode prec ⟨4, 1⟩ s.t)

/-- The `while True` loop of `src/pi_solver.py` lines 36-46, fueled and
generalized over the rounding mode the context inherited: step, then exit
if `abs(a - b) < threshold`, else continue.  `none` means the loop has not
exited within `fuel` iterations. -/
def glLoopAuxM (mode : RoundingMode) (prec : Nat) (thr : Dec) : Nat → GLState → Option GLState
  | 0, _ => none
  | fuel+1, s =>
    let s' := glStepM mode prec s
    if glStopM mode prec thr s' then some s' else glLoopAuxM mode prec thr fuel s'

/-- The loop under the default rounding mode ROUND_HALF_EVEN. -/
def glLoopAux (prec : Nat) (thr : Dec) : Nat → GLState → Option GLState :=
  glLoopAuxM RoundingMode.halfEven prec thr

/-- A Python `decimal` thread-local context, as far as this program can
observe one: a precision and a rounding mode.  (The exponent-range fields
`Emin`/`Emax` are taken at their defaults, ±999999, which the exponents
arising here never approach, and no flags or traps are consulted.) -/
structure PyContext where
  prec : Nat
  rounding : RoundingMode
deriving DecidableEq

/-- Python's default thread context: precision 28, ROUND_HALF_EVEN. -/
def pyDefaultContext : PyContext := ⟨28, RoundingMode.halfEven⟩

/-- The function `gauss_legendre_pi` of `src/pi_solver.py`.

`ambient` is the ambient thread-local decimal context: `with localcontext()
as ctx` copies it — precision and rounding mode — and `ctx.prec = digits +
extra_precision` overwrites only the precision of the copy, so the ambient
rounding mode (but not the ambient precision) governs every arithmetic
operation of the computation; `Decimal.sqrt` alone is always correctly
rounded half-even.  `digits <= 0` raises
`ValueError("digits must be a positive integer")` before any iteration
state is created.  Otherwise the loop runs at precision `digits + 10`, and
the final `ctx.prec = digits; return +pi_estimate` rounds the estimate of
the last iteration to `digits` significant digits.  `fuel` bounds the
number of loop iterations we unfold; `.ok none` means the loop had not
exited within `fuel` iterations (in Python it would still be running, with
no error raised). -/
def gauss_legendre_pi (ambient : PyContext) (digits : Int) (fuel : Nat) :
    Except String (Option Dec) :=
  if digits ≤ 0 then .error "digits must be a positive integer" else
  let d := digits.toNat
  let prec := d + 10
  let mode := ambient.rounding
  match glLoopAuxM mode prec (glThreshold d) fuel (glInitM mode prec) with
  | none => .ok none
  | some s => .ok (some (roundDecM mode d (glEstimateM mode prec s)))

deriving instance DecidableEq for Except

/-- The spec's convergence threshold (§3, §4.1): `10 ^ -(digits+2)`. -/
def specThreshold (digits : Nat) : Dec := ⟨1, pow10 (digits + 2)⟩

/-- One loop iteration as the spec states it (§4.1 step 3): `a' = (a + b)/2`;
`b' = √(a·b)` computed from the pre-update `a` and `b` (not from `a'`);
`t' = t − p·(a − a')²`; `p' = 2·p`; every arithmetic operation performed at
working precision `prec`. -/
def specStep (prec : Nat) (s : GLState) : GLState :=
  let a' := ctxDiv prec (ctxAdd prec s.a s.b) ⟨2, 1⟩
  let b' := decSqrt prec (ctxMul prec s.a s.b)
  let t' := ctxSub prec s.t (ctxMul prec s.p (ctxSq prec (ctxSub prec s.a a')))
  let p' := ctxMul prec ⟨2, 1⟩ s.p
  ⟨a', b', t', p'⟩

/-- The spec's stopping condition (§4.1 step 3): `|a − b| < 10^-(digits+2)`,
the difference taken at working precision. -/
def specStop (prec digits : Nat) (s : GLState) : Bool :=
  dLt (dAbs (ctxSub prec s.a s.b)) (specThreshold digits)

/-- The spec's final estimate (§4.1 step 4): `(a + b)² / (4·t)`, evaluated
at working precision `prec` from the final loop state. -/
def specEstimate (prec : Nat) (s : GLState) : Dec :=
  ctxDiv prec (ctxSq prec (ctxAdd prec s.a s.b)) (ctxMul prec ⟨4, 1⟩ s.t)

/-- The spec's final rounding (§4.1 step 5): reduce the context precision to
`digits` significant decimal digits and re-normalize, round-to-nearest
(ties to even, the documented decimal-context convention). -/
def specRound (digits : Nat) (x : Dec) : Dec := roundDec digits x

namespace CalculatePi

/-- Python `range(start, stop, step)` for a positive `step`: the standard
closed form `start, start+step, ...` of length `⌈(stop−start)/step⌉`
(natural subtraction makes the list empty when `stop ≤ start`). -/
def pyRange (start stop step : Nat) : List Nat :=
  List.range' start ((stop - start + step - 1) / step) step

/-- The accumulation loop of `nilakantha_series` in `src/calculate_pi.py`
(lines 46-50): state `(pi, sign)`, per element `i`:
`pi += sign * 4 / (i * (i + 1) * (i + 2)); sign *= -1`. -/
def nilakanthaLoop : List Nat → ℚ × ℚ → ℚ × ℚ
  | [], st => st
  | i :: rest, st =>
    nilakanthaLoop rest (st.1 + st.2 * 4 / ((i : ℚ) * ((i : ℚ) + 1) * ((i : ℚ) + 2)), st.2 * (-1))

/-- The function `nilakantha_series` of `src/calculate_pi.py`: `pi = 3`,
`sign = 1`, loop over `range(2, iterations * 2, 2)`, return `pi`
(the floating-point arithmetic of the source is embedded exactly). -/
def nilakantha_series (iterations : Nat) : ℚ :=
  (nilakanthaLoop (pyRange 2 (iterations * 2) 2) (3, 1)).1

end CalculatePi

namespace CalcPi

/-- The generator `nilakantha_series` of `src/calc_pi.py` (lines 21-28): for
`n` in `range(1, iterations + 1)` yield `sign * 4 / ((2n)(2n+1)(2n+2))` with
`sign = 1` for odd `n` and `-1` for even `n`. -/
def nilakantha_series (iterations : Nat) : List ℚ :=
  (List.range' 1 iterations 1).map fun (n : ℕ) =>
    (if n % 2 = 1 then (1 : ℚ) else -1) * 4 /
      (2 * (n : ℚ) * (2 * (n : ℚ) + 1) * (2 * (n : ℚ) + 2))

/-- The function `approximate_pi` of `src/calc_pi.py` (lines 31-34):
`3.0 + sum(nilakantha_series(iterations))`. -/
def approximate_pi (iterations : Nat) : ℚ := 3 + (nilakantha_series iterations).sum

end CalcPi

/-- The fueled loop returns `some s'` exactly when some iteration count
`n + 1` below the fuel bound is the first whose post-update state passes the
stopping test, and `s'` is that state (any rounding mode). -/
theorem glLoopAuxM_eq_some_iff (mode : RoundingMode) (prec : Nat) (thr : Dec) :
    ∀ (fuel : Nat) (s₀ s' : GLState),
      glLoopAuxM mode prec thr fuel s₀ = some s' ↔
        ∃ n, n < fuel ∧ s' = (glStepM mode prec)^[n + 1] s₀ ∧
          glStopM mode prec thr ((glStepM mode prec)^[n + 1] s₀) = true ∧
          ∀ m, m < n → glStopM mode prec thr ((glStepM mode prec)^[m + 1] s₀) = false := by
  intro fuel
  induction fuel with
  | zero => intro s₀ s'; simp [glLoopAuxM]
  | succ fuel ih =>
    intro s₀ s'
    simp only [glLoopAuxM]
    cases hstop1 : glStopM mode prec thr (glStepM mode prec s₀) with
    | true =>
      simp only [hstop1, if_true]
      constructor
      · intro h'
        obtain rfl : glStepM mode prec s₀ = s' := Option.some.inj h'
        refine ⟨0, by omega, ?_, ?_, fun m hm => (Nat.not_lt_zero m hm).elim⟩
        · simp [Function.iterate_succ_apply, Function.iterate_zero_apply]
        · simpa [Function.iterate_succ_apply, Function.iterate_zero_apply] using hstop1
      · rintro ⟨n, hn, hs, hstop, hmin⟩
        cases n with
        | zero =>
          rw [hs]
          simp [Function.iterate_succ_apply, Function.iterate_zero_apply]
        | succ k =>
          have h0 := hmin 0 (by omega)
          simp [Function.iterate_succ_apply, Function.iterate_zero_apply, hstop1] at h0
    | false =>
      simp only [hstop1, Bool.false_eq_true, if_false]
      rw [ih (glStepM mode prec s₀) s']
      constructor
      · rintro ⟨n, hn, hs, hstop, hmin⟩
        refine ⟨n + 1, by omega, ?_, ?_, ?_⟩
        · rw [Function.iterate_succ_apply]; exact hs
        · rw [Function.iterate_succ_apply]; exact hstop
        · intro m hm
          cases m with
          | zero => simpa [Function.iterate_succ_apply, Function.iterate_zero_apply] using hstop1
          | succ k => rw [Function.iterate_succ_apply]; exact hmin k (by omega)
      · rintro ⟨n, hn, hs, hstop, hmin⟩
        cases n with
        | zero => simp [Function.iterate_succ_apply, Function.iterate_zero_apply, hstop1] at hstop
        | succ k =>
          refine ⟨k, by omega, ?_, ?_, ?_⟩
          · rw [← Function.iterate_succ_apply]; exact hs
          · rw [← Function.iterate_succ_apply]; exact hstop
          · intro m hm
            have hmk := hmin (m + 1) (by omega)
            rw [Function.iterate_succ_apply] at hmk
            exact hmk

/-- The default-rounding loop returns `some s'` exactly when some iteration
count `n + 1` below the fuel bound is the first whose post-update state
passes the stopping test, and `s'` is that state. -/
theorem glLoopAux_eq_some_iff (prec : Nat) (thr : Dec) :
    ∀ (fuel : Nat) (s₀ s' : GLState),
      glLoopAux prec thr fuel s₀ = some s' ↔
        ∃ n, n < fuel ∧ s' = (glStep prec)^[n + 1] s₀ ∧
          glStop prec thr ((glStep prec)^[n + 1] s₀) = true ∧
          ∀ m, m < n → glStop prec thr ((glStep prec)^[m + 1] s₀) = false :=
  glLoopAuxM_eq_some_iff RoundingMode.halfEven prec thr

/-- C2: for positive `digits` and any ambient precision, under the default
rounding mode (round-to-nearest, as the spec pins), `gauss_legendre_pi`
works at precision `digits + 10`, starts from `a = 1`, `b = 1/√2`,
`t = 1/4`, `p = 1`, each iteration performs the spec's updates (with `b'`
computed from the pre-update `a` and `b`), and it exits after the first
iteration whose post-update state satisfies `|a − b| < 10^-(digits+2)`,
accepting that same iteration's state. -/
theorem gauss_legendre_pi_follows_spec (p : ℕ) (digits : ℤ) (h : 0 < digits) (fuel : ℕ) :
    ((glInit (digits.toNat + 10)).a.val = 1
      ∧ (glInit (digits.toNat + 10)).b =
          ctxDiv (digits.toNat + 10) ⟨1, 1⟩ (decSqrt (digits.toNat + 10) ⟨2, 1⟩)
      ∧ (glInit (digits.toNat + 10)).t.val = 1 / 4
      ∧ (glInit (digits.toNat + 10)).p.val = 1)
    ∧ (∀ (prec : ℕ) (s : GLState), glStep prec s = specStep prec s)
    ∧ (∀ s' : GLState,
        glLoopAux (digits.toNat + 10) (glThreshold digits.toNat) fuel
            (glInit (digits.toNat + 10)) = some s' ↔
          ∃ n, n < fuel ∧
            s' = (specStep (digits.toNat + 10))^[n + 1] (glInit (digits.toNat + 10))
            ∧ specStop (digits.toNat + 10) digits.toNat
                ((specStep (digits.toNat + 10))^[n + 1] (glInit (digits.toNat + 10))) = true
            ∧ ∀ m, m < n → specStop (digits.toNat + 10) digits.toNat
                ((specStep (digits.toNat + 10))^[m + 1] (glInit (digits.toNat + 10))) = false)
    ∧ gauss_legendre_pi ⟨p, RoundingMode.halfEven⟩ digits fuel =
        (match glLoopAux (digits.toNat + 10) (specThreshold digits.toNat) fuel
            (glInit (digits.toNat + 10)) with
         | none => .ok none
         | some s => .ok (some (roundDec digits.toNat (glEstimate (digits.toNat + 10) s)))) := by
  have hstep : ∀ (prec : ℕ) (s : GLState), glStep prec s = specStep prec s := by
    intro prec s
    simp [glStep, specStep, ctxMul, dMul, Int.mul_comm, Nat.mul_comm]
  refine ⟨⟨?_, rfl, ?_, ?_⟩, hstep, ?_, ?_⟩
  · simp [glInit, Dec.val]
  · norm_num [glInit, Dec.val]
  · simp [glInit, Dec.val]
  · intro s'
    have hfun : specStep (digits.toNat + 10) = glStep (digits.toNat + 10) :=
      funext fun s => (hstep _ s).symm
    rw [hfun]
    exact glLoopAux_eq_some_iff (digits.toNat + 10) (glThreshold digits.toNat) fuel
      (glInit (digits.toNat + 10)) s'
  · simp only [gauss_legendre_pi]
    rw [if_neg (by omega)]
    rfl

/-- C3: for positive `digits`, under the default rounding mode, when the
loop exits with state `s` the value returned is the spec's estimate
`(a + b)² / (4·t)` evaluated at working precision `digits + 10` on `s`,
rounded to `digits` significant digits, round-to-nearest (ties to even). -/
theorem gauss_legendre_pi_final_rounding (p : ℕ) (digits : ℤ) (h : 0 < digits) (fuel : ℕ)
    (s : GLState)
    (hloop : glLoopAux (digits.toNat + 10) (glThreshold digits.toNat) fuel
        (glInit (digits.toNat + 10)) = some s) :
    gauss_legendre_pi ⟨p, RoundingMode.halfEven⟩ digits fuel =
      .ok (some (specRound digits.toNat (specEstimate (digits.toNat + 10) s))) := by
  have hloopM : glLoopAuxM RoundingMode.halfEven (digits.toNat + 10) (glThreshold digits.toNat)
      fuel (glInitM RoundingMode.halfEven (digits.toNat + 10)) = some s := hloop
  simp only [gauss_legendre_pi]
  rw [if_neg (by omega), hloopM]
  rfl

/-- C5: `gauss_legendre_pi` fails, with the `ValueError` message of
`src/pi_solver.py` line 22, exactly for `digits < 1`; the failure does not
depend on the ambient context (precision or rounding mode) or the fuel
(no computation is attempted); for `digits ≥ 1` and any ambient context
the call never produces an error; `0` and `-3` fail. -/
theorem gauss_legendre_pi_invalid_argument (c : PyContext) (digits : ℤ) (fuel : ℕ) :
    (digits < 1 → gauss_legendre_pi c digits fuel = .error "digits must be a positive integer")
    ∧ (digits < 1 → ∀ (c' : PyContext) (fuel' : ℕ),
        gauss_legendre_pi c digits fuel = gauss_legendre_pi c' digits fuel')
    ∧ (1 ≤ digits → ∃ r : Option Dec, gauss_legendre_pi c digits fuel = .ok r)
    ∧ gauss_legendre_pi c 0 fuel = .error "digits must be a positive integer"
    ∧ gauss_legendre_pi c (-3) fuel = .error "digits must be a positive integer" := by
  refine ⟨?_, ?_, ?_, ?_, ?_⟩
  · intro h
    simp only [gauss_legendre_pi]
    rw [if_pos (by omega)]
  · intro h c' fuel'
    simp only [gauss_legendre_pi]
    rw [if_pos (by omega), if_pos (by omega)]
  · intro h
    simp only [gauss_legendre_pi]
    rw [if_neg (by omega)]
    cases hloop : glLoopAuxM c.rounding (digits.toNat + 10) (glThreshold digits.toNat) fuel
        (glInitM c.rounding (digits.toNat + 10)) with
    | none => exact ⟨none, rfl⟩
    | some s =>
      exact ⟨some (roundDecM c.rounding digits.toNat (glEstimateM c.rounding (digits.toNat + 10) s)),
        rfl⟩
  · simp only [gauss_legendre_pi]
    rw [if_pos (by omega)]
  · simp only [gauss_legendre_pi]
    rw [if_pos (by omega)]

/-- C8 as stated is false: the result is not a pure function of `digits`:
`localcontext()` inherits the ambient rounding mode, and two calls with the
same `digits = 10` under ambient rounding ROUND_HALF_EVEN (the default)
and ROUND_FLOOR return different decimals, 3.141592654 and 3.141592653. -/
theorem gauss_legendre_pi_not_context_free_cex :
    gauss_legendre_pi ⟨28, RoundingMode.halfEven⟩ 10 20 = .ok (some ⟨3141592654, pow10 9⟩)
    ∧ gauss_legendre_pi ⟨28, RoundingMode.floor⟩ 10 20 = .ok (some ⟨3141592653, pow10 9⟩)
    ∧ gauss_legendre_pi ⟨28, RoundingMode.floor⟩ 10 20 ≠
        gauss_legendre_pi ⟨28, RoundingMode.halfEven⟩ 10 20 := by
  refine ⟨by decide, by decide, by decide⟩

/-- C8 amended: the result is a pure function of `digits`, the fuel bound
and the ambient rounding mode: the ambient precision is overwritten by
`localcontext()`'s `ctx.prec = digits + extra_precision` before any
arithmetic and cannot influence the result, so under any fixed ambient
context — in particular the default context, which this repository never
modifies — repeated calls with the same `digits` return bit-identical
results. -/
theorem gauss_legendre_pi_deterministic (p₁ p₂ : ℕ) (mode : RoundingMode)
    (digits : ℤ) (fuel : ℕ) :
    gauss_legendre_pi ⟨p₁, mode⟩ digits fuel = gauss_legendre_pi ⟨p₂, mode⟩ digits fuel := rfl

/-- C6: `gauss_legendre_pi(1)` returns the decimal `3` (value exactly 3). -/
theorem gauss_legendre_pi_one_eq_three :
    gauss_legendre_pi pyDefaultContext 1 12 = .ok (some ⟨3, 1⟩) ∧ (⟨3, 1⟩ : Dec).val = 3 := by
  constructor
  · decide
  · norm_num [Dec.val]

/-- Appending one index to the Nilakantha accumulation loop applies one more
update to the accumulator and flips the sign. -/
theorem nilakanthaLoop_append (l : List ℕ) (i : ℕ) (st : ℚ × ℚ) :
    CalculatePi.nilakanthaLoop (l ++ [i]) st =
      ((CalculatePi.nilakanthaLoop l st).1 +
         (CalculatePi.nilakanthaLoop l st).2 * 4 /
           ((i : ℚ) * ((i : ℚ) + 1) * ((i : ℚ) + 2)),
       (CalculatePi.nilakanthaLoop l st).2 * (-1)) := by
  induction l generalizing st with
  | nil => rfl
  | cons j rest ih =>
    rw [List.cons_append]
    simp only [CalculatePi.nilakanthaLoop]
    exact ih _

/-- One more term of `approximate_pi`'s sum. -/
theorem approximate_pi_succ (j : ℕ) :
    CalcPi.approximate_pi (j + 1) =
      CalcPi.approximate_pi j +
        (if (1 + j) % 2 = 1 then (1 : ℚ) else -1) * 4 /
          (2 * ((1 + j : ℕ) : ℚ) * (2 * ((1 + j : ℕ) : ℚ) + 1) * (2 * ((1 + j : ℕ) : ℚ) + 2)) := by
  simp only [CalcPi.approximate_pi, CalcPi.nilakantha_series, List.range'_concat,
    List.map_append, List.sum_append, List.map_cons, List.map_nil, List.sum_cons,
    List.sum_nil, Nat.one_mul]
  ring

/-- The `calculate_pi.py` loop over `[2, 4, …, 2j]` starting from `(3, 1)`
computes `approximate_pi j` with final sign `(-1)^j`. -/
theorem nilakanthaLoop_eq_approximate (j : ℕ) :
    CalculatePi.nilakanthaLoop (List.range' 2 j 2) (3, 1) =
      (CalcPi.approximate_pi j, (-1) ^ j) := by
  induction j with
  | zero =>
    simp [CalculatePi.nilakanthaLoop, CalcPi.approximate_pi, CalcPi.nilakantha_series]
  | succ j ih =>
    rw [List.range'_concat, nilakanthaLoop_append, ih, approximate_pi_succ j]
    have hc : ((2 + 2 * j : ℕ) : ℚ) = 2 * ((1 + j : ℕ) : ℚ) := by push_cast; ring
    have hsign : ((-1 : ℚ)) ^ j = (if (1 + j) % 2 = 1 then (1 : ℚ) else -1) := by
      rcases Nat.even_or_odd j with ⟨k, rfl⟩ | ⟨k, rfl⟩
      · have h1 : (1 + (k + k)) % 2 = 1 := by omega
        rw [h1, if_pos rfl, ← two_mul, pow_mul]
        norm_num
      · have h1 : (1 + (2 * k + 1)) % 2 = 0 := by omega
        rw [h1, if_neg (by norm_num), pow_succ, pow_mul]
        norm_num
    simp only [Prod.mk.injEq]
    constructor
    · rw [hsign, hc]
    · rw [pow_succ]

/-- C10: the two Nilakantha baselines disagree by one term: for `n ≥ 1`,
`nilakantha_series` of `src/calculate_pi.py` loops over `range(2, 2n, 2)`,
a list of `n − 1` indices, so it equals `approximate_pi (n − 1)` of
`src/calc_pi.py`; at `n = 1` it returns exactly 3 with the loop body never
executed; and the two functions differ at every `n ≥ 1`. -/
theorem nilakantha_implementations_disagree (n : ℕ) (h : 1 ≤ n) :
    (CalculatePi.pyRange 2 (n * 2) 2).length = n - 1
    ∧ CalculatePi.pyRange 2 (1 * 2) 2 = []
    ∧ CalculatePi.nilakantha_series 1 = 3
    ∧ CalculatePi.nilakantha_series n = CalcPi.approximate_pi (n - 1)
    ∧ CalculatePi.nilakantha_series n ≠ CalcPi.approximate_pi n := by
  have hlen : (n * 2 - 2 + 2 - 1) / 2 = n - 1 := by omega
  have hrange : CalculatePi.pyRange 2 (n * 2) 2 = List.range' 2 (n - 1) 2 := by
    rw [CalculatePi.pyRange, hlen]
  have hone : CalculatePi.pyRange 2 (1 * 2) 2 = [] := by
    norm_num [CalculatePi.pyRange]
  have hid : CalculatePi.nilakantha_series n = CalcPi.approximate_pi (n - 1) := by
    rw [CalculatePi.nilakantha_series, hrange, nilakanthaLoop_eq_approximate]
  refine ⟨by rw [hrange, List.length_range'], hone, ?_, hid, ?_⟩
  · rw [CalculatePi.nilakantha_series, hone]
    rfl
  · rw [hid]
    obtain ⟨m, rfl⟩ : ∃ m, n = m + 1 := ⟨n - 1, by omega⟩
    simp only [Nat.add_sub_cancel]
    intro heq
    rw [approximate_pi_succ m] at heq
    have hm : (0 : ℚ) < 2 * ((1 + m : ℕ) : ℚ) * (2 * ((1 + m : ℕ) : ℚ) + 1) *
        (2 * ((1 + m : ℕ) : ℚ) + 2) := by positivity
    have hterm : (if (1 + m) % 2 = 1 then (1 : ℚ) else -1) * 4 /
        (2 * ((1 + m : ℕ) : ℚ) * (2 * ((1 + m : ℕ) : ℚ) + 1) *
          (2 * ((1 + m : ℕ) : ℚ) + 2)) = 0 := by
      linarith
    rw [div_eq_zero_iff] at hterm
    rcases hterm with h4 | h0
    · rcases Nat.even_or_odd (1 + m) with he | ho
      · rw [Nat.even_iff.mp he] at h4
        norm_num at h4
      · rw [Nat.odd_iff.mp ho] at h4
        norm_num at h4
    · exact absurd h0 (ne_of_gt hm)

/-- Closed instance of `nilakantha_implementations_disagree` at `n = 1`. -/
theorem nilakantha_implementations_disagree_witness :
    1 ≤ 1
    ∧ ((CalculatePi.pyRange 2 (1 * 2) 2).length = 1 - 1
    ∧ CalculatePi.pyRange 2 (1 * 2) 2 = []
    ∧ CalculatePi.nilakantha_series 1 = 3
    ∧ CalculatePi.nilakantha_series 1 = CalcPi.approximate_pi (1 - 1)
    ∧ CalculatePi.nilakantha_series 1 ≠ CalcPi.approximate_pi 1) :=
  ⟨le_refl 1, nilakantha_implementations_disagree 1 (le_refl 1)⟩

/-- Closed instance of `gauss_legendre_pi_follows_spec` at `digits = 1`. -/
theorem gauss_legendre_pi_follows_spec_witness :
    (0 : ℤ) < 1 ∧ (glInit ((1 : ℤ).toNat + 10)).t.val = 1 / 4 :=
  ⟨by norm_num, (gauss_legendre_pi_follows_spec 28 1 (by norm_num) 5).1.2.2.1⟩

/-- Closed instance of `gauss_legendre_pi_final_rounding` at `digits = 1`,
`fuel = 2`, with the concrete exit state of that run. -/
theorem gauss_legendre_pi_final_rounding_witness :
    (0 : ℤ) < 1
    ∧ glLoopAux ((1 : ℤ).toNat + 10) (glThreshold (1 : ℤ).toNat) 2 (glInit ((1 : ℤ).toNat + 10)) =
        some ⟨⟨84722490290, 100000000000⟩, ⟨84720126674, 100000000000⟩,
          ⟨22847329109, 100000000000⟩, ⟨40000000000, 10000000000⟩⟩
    ∧ gauss_legendre_pi ⟨28, RoundingMode.halfEven⟩ 1 2 =
        .ok (some (specRound (1 : ℤ).toNat (specEstimate ((1 : ℤ).toNat + 10)
          ⟨⟨84722490290, 100000000000⟩, ⟨84720126674, 100000000000⟩,
           ⟨22847329109, 100000000000⟩, ⟨40000000000, 10000000000⟩⟩))) :=
  ⟨by norm_num, by decide,
    gauss_legendre_pi_final_rounding 28 1 (by norm_num) 2
      ⟨⟨84722490290, 100000000000⟩, ⟨84720126674, 100000000000⟩,
       ⟨22847329109, 100000000000⟩, ⟨40000000000, 10000000000⟩⟩ (by decide)⟩
/-- Rational lower bound on pi accurate to 103 decimal places. -/
theorem pi_gt_big : (31415926535897932384626433832795028841971693993751058209749445923078164062862089986280348253421170679821 : Real) / 10000000000000000000000000000000000000000000000000000000000000000000000000000000000000000000000000000000 < Real.pi := by
  pi_lower_bound [8838834764831844055010554526310612991060449221105925457354248362442077990388168992814922089547759829593836539/6250000000000000000000000000000000000000000000000000000000000000000000000000000000000000000000000000000000000,
    1847759065022573512256366378793576573644833251727284972230195462561070015002204717429679869700689192195926051567/1000000000000000000000000000000000000000000000000000000000000000000000000000000000000000000000000000000000000000,
    1961570560806460898252364472268478073947867461786672190005832177090613027099210127830129971706601526519789732561/1000000000000000000000000000000000000000000000000000000000000000000000000000000000000000000000000000000000000000,
    1990369453344393772489673906218959843150949737459714123667225931569780333789173075945058168539296780575448986237/1000000000000000000000000000000000000000000000000000000000000000000000000000000000000000000000000000000000000000,
    199759091241034478542954320951820138888640722940922358868563414737121981190431480766237848853278834208232855060269/100000000000000000000000000000000000000000000000000000000000000000000000000000000000000000000000000000000000000000,
    199939763739240844023153129933234439370012216251545924928824757585276333750942955008380321105532614652737105114841/100000000000000000000000000000000000000000000000000000000000000000000000000000000000000000000000000000000000000000,
    999924701839144540921646491196383224350606468802217830244083673001483721386884133479350174158936837604762585671223/500000000000000000000000000000000000000000000000000000000000000000000000000000000000000000000000000000000000000000,
    999981175282601142656990437728567716173917250944335091940157695080821069476590065544506226027002572168482368832023/500000000000000000000000000000000000000000000000000000000000000000000000000000000000000000000000000000000000000000,
    19999905876191523430231602514002397991059752672443753082214739734876466022262867047820192476562608150235960810089901/10000000000000000000000000000000000000000000000000000000000000000000000000000000000000000000000000000000000000000000,
    99999882345170190992902571017152601904826792288976503922386252945511180857846979663044035406638985169989246921748551/50000000000000000000000000000000000000000000000000000000000000000000000000000000000000000000000000000000000000000000,
    49999985293144110958011410886938283855813194967465080069589799594882857473153131217316375422480094358622150839289223/25000000000000000000000000000000000000000000000000000000000000000000000000000000000000000000000000000000000000000000,
    499999963232858925572365740353693928474100577844461384532366072785672080958819586053448598455886280077139140768392923/250000000000000000000000000000000000000000000000000000000000000000000000000000000000000000000000000000000000000000000,
    1999999963232858587616693830805819429010152102485560706750627578109197659442272877345353850625347541349156256216376461/1000000000000000000000000000000000000000000000000000000000000000000000000000000000000000000000000000000000000000000000,
    19999999908082146257819438662792122979177886063789056480615056533571519407830625509536782830947791707907282502914365963/10000000000000000000000000000000000000000000000000000000000000000000000000000000000000000000000000000000000000000000000,
    199999999770205365512534661558910821680107483238856424683565827666969236808549442645904742576544434393649613740468362881/100000000000000000000000000000000000000000000000000000000000000000000000000000000000000000000000000000000000000000000000,
    99999999971275670684941397221864177608908945791828525271070970796456493836407915521547951226720186869979105947373482053/50000000000000000000000000000000000000000000000000000000000000000000000000000000000000000000000000000000000000000000000,
    399999999971275670683910038353540196104192133243806320781216556490050400951059020142131194169094640706962528068506716311/200000000000000000000000000000000000000000000000000000000000000000000000000000000000000000000000000000000000000000000000,
    7999999999856378353418260993182272859037113499970206406838236742595006241900361640407605448850503826514440269079912107/4000000000000000000000000000000000000000000000000000000000000000000000000000000000000000000000000000000000000000000000,
    2499999999988779558860776460432493311103786503663285227952483408769586702346464171397783419163181221782267552367826568137/1250000000000000000000000000000000000000000000000000000000000000000000000000000000000000000000000000000000000000000000000,
    99999999999887795588607701655175253650384922191052261502746971139092373568521728912645669422783648394836664011847792834741/50000000000000000000000000000000000000000000000000000000000000000000000000000000000000000000000000000000000000000000000000,
    24999999999992987224287980369867989611300450237500755346993188351599469627853067316311910426688207787234881591153846963267/12500000000000000000000000000000000000000000000000000000000000000000000000000000000000000000000000000000000000000000000000,
    1999999999999859744485759602479457473516421086293467729704702364438089447298111589986282561926516413172327855192344966581183/1000000000000000000000000000000000000000000000000000000000000000000000000000000000000000000000000000000000000000000000000000,
    999999999999982468060719950156247736729875318948515209613121730434024007646151254572605847554762816730860913353585765585639/500000000000000000000000000000000000000000000000000000000000000000000000000000000000000000000000000000000000000000000000000,
    4999999999999978085075899937647283281081194776674778841900167568914601400884430602236854236240910406361519359346538109964801/2500000000000000000000000000000000000000000000000000000000000000000000000000000000000000000000000000000000000000000000000000,
    19999999999999978085075899937635276683623407420515878950000529909822947605826984365517434928200209666400957063419399798622963/10000000000000000000000000000000000000000000000000000000000000000000000000000000000000000000000000000000000000000000000000000,
    99999999999999972606344874922040343792823700725817365627581198500104051444875753443869516324092188705776744944339112460642083/50000000000000000000000000000000000000000000000000000000000000000000000000000000000000000000000000000000000000000000000000000,
    1999999999999999863031724374610197028886986555441481278424350154117462709497137377377877689851860655293874410659173239034820609/1000000000000000000000000000000000000000000000000000000000000000000000000000000000000000000000000000000000000000000000000000000,
    249999999999999995719741386706568620511490736512329994257903755085567794319189869009338615499763073342600650328071247521077163/125000000000000000000000000000000000000000000000000000000000000000000000000000000000000000000000000000000000000000000000000000,
    4999999999999999978598706933532843056755919190880129405631034781313572414946143951370628985075782360495887602049154453462064543/2500000000000000000000000000000000000000000000000000000000000000000000000000000000000000000000000000000000000000000000000000000,
    199999999999999999785987069335328430453055355679597492519637630009052549392549621526710119986481273784815831347183264130265023529/100000000000000000000000000000000000000000000000000000000000000000000000000000000000000000000000000000000000000000000000000000000,
    39999999999999999989299353466766421521221469831114827106390577190967845571294091469065771569493882522381695699594478652662888403/20000000000000000000000000000000000000000000000000000000000000000000000000000000000000000000000000000000000000000000000000000000,
    199999999999999999986624191833458026901079556678623206533086025193797864010425179369498114976908367717155994147637144821106817153/100000000000000000000000000000000000000000000000000000000000000000000000000000000000000000000000000000000000000000000000000000000,
    1999999999999999999966560479583645067252419341315139061739021516284831266209620117811388173884367323112217252963332960063855201481/1000000000000000000000000000000000000000000000000000000000000000000000000000000000000000000000000000000000000000000000000000000000,
    499999999999999999997910029973977816703271840857486520193162364842747278338350646327407080727848728783563883544452172323568780711/250000000000000000000000000000000000000000000000000000000000000000000000000000000000000000000000000000000000000000000000000000000,
    99999999999999999999895501498698890835163537443190455120089037186018329109197622516390249262345516338861943189554855966179042645057/50000000000000000000000000000000000000000000000000000000000000000000000000000000000000000000000000000000000000000000000000000000000,
    49999999999999999999986937687337361354395440474158685924712095864802822462156713233595761602870360950373577556841257735096902096877/25000000000000000000000000000000000000000000000000000000000000000000000000000000000000000000000000000000000000000000000000000000000,
    1999999999999999999999869376873373613543954400475986556833873374189125959906114819383760250401409509179018756462263980846557462736789/1000000000000000000000000000000000000000000000000000000000000000000000000000000000000000000000000000000000000000000000000000000000000,
    1999999999999999999999967344218343403385988599852396620307640369518595745415809500302055620577164166023436429221432442857061719532589/1000000000000000000000000000000000000000000000000000000000000000000000000000000000000000000000000000000000000000000000000000000000000,
    19999999999999999999999918360545858508464971499464366538956083440028560093030323711198903133504751792674977398548062770148637113870129/10000000000000000000000000000000000000000000000000000000000000000000000000000000000000000000000000000000000000000000000000000000000000,
    99999999999999999999999897950682323135581214374278387857503536336358222166116377240956343618956888006551331949572227527593549435271189/50000000000000000000000000000000000000000000000000000000000000000000000000000000000000000000000000000000000000000000000000000000000000,
    99999999999999999999999974487670580783895303593566342569613911086359713168813101935585178049031962398445760518943669589494700527952111/50000000000000000000000000000000000000000000000000000000000000000000000000000000000000000000000000000000000000000000000000000000000000,
    1999999999999999999999999872438352903919476517967827644854617089184636262877911059237022172605342297960442303460076759048750431876518073/1000000000000000000000000000000000000000000000000000000000000000000000000000000000000000000000000000000000000000000000000000000000000000,
    999999999999999999999999984054794112989934564745978328482031746577855710892044528797313699674265806810178327181549578435758625634929479/500000000000000000000000000000000000000000000000000000000000000000000000000000000000000000000000000000000000000000000000000000000000000,
    3999999999999999999999999984054794112989934564745978296700832899185299755400120813706045442278592956506371473652821720455741135458349841/2000000000000000000000000000000000000000000000000000000000000000000000000000000000000000000000000000000000000000000000000000000000000000,
    199999999999999999999999999800684926412374182059324728609444164841714509581589248462689229927698807459134084583526722219984033198967289621/100000000000000000000000000000000000000000000000000000000000000000000000000000000000000000000000000000000000000000000000000000000000000000,
    99999999999999999999999999975085615801546772757415591073076887905273634405170147878668017200340815425916929339941825598868717688038263439/50000000000000000000000000000000000000000000000000000000000000000000000000000000000000000000000000000000000000000000000000000000000000000,
    399999999999999999999999999975085615801546772757415591072300979730288464582038020833827654879249678557677129655476637098415624156155517437/200000000000000000000000000000000000000000000000000000000000000000000000000000000000000000000000000000000000000000000000000000000000000000,
    1999999999999999999999999999968857019751933465946769488840133753358177715157818736340768179734194887223301076865120961837721430910700149063/1000000000000000000000000000000000000000000000000000000000000000000000000000000000000000000000000000000000000000000000000000000000000000000,
    4999999999999999999999999999980535637344958416216730930525045709707504374228366586822118029087817309413092402000867443557138919644872732411/2500000000000000000000000000000000000000000000000000000000000000000000000000000000000000000000000000000000000000000000000000000000000000000,
    199999999999999999999999999999805356373449584162167309305250362381721651997920490559744024990584337485510487561212733399393888896816976815707/100000000000000000000000000000000000000000000000000000000000000000000000000000000000000000000000000000000000000000000000000000000000000000000,
    199999999999999999999999999999951339093362396040541827326312584675720826015457424183156184039937427468169051493953493939114732053482858932363/100000000000000000000000000000000000000000000000000000000000000000000000000000000000000000000000000000000000000000000000000000000000000000000,
    249999999999999999999999999999984793466675748762669321039472682248685446646703671740300383902475076556644545882816058638416560715902086590233/125000000000000000000000000000000000000000000000000000000000000000000000000000000000000000000000000000000000000000000000000000000000000000000,
    499999999999999999999999999999992396733337874381334660519736341066533059387960989205533201499985988002846390316939053644127955584022836661639/250000000000000000000000000000000000000000000000000000000000000000000000000000000000000000000000000000000000000000000000000000000000000000000,
    3999999999999999999999999999999984793466675748762669321039472682104161286808226555078757907774346090982382202160913816369730033074819545371547/2000000000000000000000000000000000000000000000000000000000000000000000000000000000000000000000000000000000000000000000000000000000000000000000,
    199999999999999999999999999999999809918333446859533366512993408526211688485203783740571009799599245160733828346501589136844211953998211881354761/100000000000000000000000000000000000000000000000000000000000000000000000000000000000000000000000000000000000000000000000000000000000000000000000,
    39999999999999999999999999999999990495916672342976668325649670426309455329261451084554632189385211245561591728747513349249189741674460980243059/20000000000000000000000000000000000000000000000000000000000000000000000000000000000000000000000000000000000000000000000000000000000000000000000,
    1999999999999999999999999999999999881198958404287208354070620880328864663193897081986701907677956543655325619985803715601264960355396164440904381/1000000000000000000000000000000000000000000000000000000000000000000000000000000000000000000000000000000000000000000000000000000000000000000000000,
    12799999999999999999999999999999999809918333446859533366512993408526182049741486908550630654408987031082822322318196333738471799878374517203/6400000000000000000000000000000000000000000000000000000000000000000000000000000000000000000000000000000000000000000000000000000000000000000,
    19999999999999999999999999999999999925749349002679505221294138050205539725351288985505315451148457488824764197252077865337000197245334701778819419/10000000000000000000000000000000000000000000000000000000000000000000000000000000000000000000000000000000000000000000000000000000000000000000000000,
    1599999999999999999999999999999999998514986980053590104425882761004110793817880883019369935781818884425535466943406004284487626776704045809614229/800000000000000000000000000000000000000000000000000000000000000000000000000000000000000000000000000000000000000000000000000000000000000000000000,
    49999999999999999999999999999999999988398335781668672690827209070344615575356208272239733144308838422560902442601726387367279342936602670187517031/25000000000000000000000000000000000000000000000000000000000000000000000000000000000000000000000000000000000000000000000000000000000000000000000000,
    999999999999999999999999999999999999941991678908343363454136045351723077875098558703262297622810915097787520471793992666202079673393843775567541929/500000000000000000000000000000000000000000000000000000000000000000000000000000000000000000000000000000000000000000000000000000000000000000000000000,
    999999999999999999999999999999999999985497919727085840863534011337930769468669484509694551399531898961008318134121058243475676404209783588153993319/500000000000000000000000000000000000000000000000000000000000000000000000000000000000000000000000000000000000000000000000000000000000000000000000000,
    19999999999999999999999999999999999999927489598635429204317670056689653847343215978590821478239945957538243388190820514760828515534919913665698456247/10000000000000000000000000000000000000000000000000000000000000000000000000000000000000000000000000000000000000000000000000000000000000000000000000000,
    199999999999999999999999999999999999999818723996588573010794175141724134618357957794003521646376293933053859593927185727155367261018866709995389080221/100000000000000000000000000000000000000000000000000000000000000000000000000000000000000000000000000000000000000000000000000000000000000000000000000000,
    199999999999999999999999999999999999999954680999147143252698543785431033654589484313971284658517600298213980593697429833141214057871305197136779057431/100000000000000000000000000000000000000000000000000000000000000000000000000000000000000000000000000000000000000000000000000000000000000000000000000000,
    399999999999999999999999999999999999999977340499573571626349271892715516827294741515169442860124241000975804758750669091703295473148827431859802419439/200000000000000000000000000000000000000000000000000000000000000000000000000000000000000000000000000000000000000000000000000000000000000000000000000000,
    3999999999999999999999999999999999999999943351248933929065873179731788792068236853386788482482101503034857520935565394088710488009550006173634244014253/2000000000000000000000000000000000000000000000000000000000000000000000000000000000000000000000000000000000000000000000000000000000000000000000000000000,
    4999999999999999999999999999999999999999982297265291852833085368666183997521324016652032719160952883802488132248511742008929123525557745165571571503899/2500000000000000000000000000000000000000000000000000000000000000000000000000000000000000000000000000000000000000000000000000000000000000000000000000000,
    99999999999999999999999999999999999999999911486326459264165426843330919987606620083220990243786384624142559607437743155489904452982232515611302949267513/50000000000000000000000000000000000000000000000000000000000000000000000000000000000000000000000000000000000000000000000000000000000000000000000000000000,
    99999999999999999999999999999999999999999977871581614816041356710832729996901655020802799226445447418856272335996634816712804789913433163881291938425133/50000000000000000000000000000000000000000000000000000000000000000000000000000000000000000000000000000000000000000000000000000000000000000000000000000000,
    199999999999999999999999999999999999999999988935790807408020678355416364998450827510401093571410080117280715222265467286836443479523270408129110521940911/100000000000000000000000000000000000000000000000000000000000000000000000000000000000000000000000000000000000000000000000000000000000000000000000000000000,
    1999999999999999999999999999999999999999999972339477018520051695888540912496127068776002542652392298048109649964580636891141134376659626762755591068680901/1000000000000000000000000000000000000000000000000000000000000000000000000000000000000000000000000000000000000000000000000000000000000000000000000000000000,
    4999999999999999999999999999999999999999999982712173136575032309930338070310079417985001559270849420304272884651131174412283525497576452569331474241116497/2500000000000000000000000000000000000000000000000000000000000000000000000000000000000000000000000000000000000000000000000000000000000000000000000000000000,
    199999999999999999999999999999999999999999999827121731365750323099303380703100794179850015517991254788103239730069482435011136046256174925714902881041856499/100000000000000000000000000000000000000000000000000000000000000000000000000000000000000000000000000000000000000000000000000000000000000000000000000000000000,
    39999999999999999999999999999999999999999999991356086568287516154965169035155039708992500774965597246718418372547951255386660562203813876084187074110203701/20000000000000000000000000000000000000000000000000000000000000000000000000000000000000000000000000000000000000000000000000000000000000000000000000000000000,
    79999999999999999999999999999999999999999999995678043284143758077482584517577519854496250387366052936773366234529535269397843251088282579260591655760029061/40000000000000000000000000000000000000000000000000000000000000000000000000000000000000000000000000000000000000000000000000000000000000000000000000000000000,
    9999999999999999999999999999999999999999999999864938852629492439921330766174297495453007824604277078597715796768544536869499109174527390298900687196148119471/5000000000000000000000000000000000000000000000000000000000000000000000000000000000000000000000000000000000000000000000000000000000000000000000000000000000000,
    2499999999999999999999999999999999999999999999991558678289343277495083172885893593465812989037753066229912676390838667299668952254314501888946982298258686423/1250000000000000000000000000000000000000000000000000000000000000000000000000000000000000000000000000000000000000000000000000000000000000000000000000000000000,
    9999999999999999999999999999999999999999999999991558678289343277495083172885893593465812989037749503434301536164039825736000266737041136887763401627913149367/5000000000000000000000000000000000000000000000000000000000000000000000000000000000000000000000000000000000000000000000000000000000000000000000000000000000000,
    99999999999999999999999999999999999999999999999978896695723358193737707932214733983664532472594371531838496877768350288362707738394306989093668765680899663649/50000000000000000000000000000000000000000000000000000000000000000000000000000000000000000000000000000000000000000000000000000000000000000000000000000000000000,
    249999999999999999999999999999999999999999999999986810434827098871086067457634208739790332795371481859469801648192445605855240316426395641132646144408943145711/125000000000000000000000000000000000000000000000000000000000000000000000000000000000000000000000000000000000000000000000000000000000000000000000000000000000000,
    19999999999999999999999999999999999999999999999999736208696541977421721349152684174795806655907429635449749738461785045495247546228177681687398438717447822015693/10000000000000000000000000000000000000000000000000000000000000000000000000000000000000000000000000000000000000000000000000000000000000000000000000000000000000000,
    19999999999999999999999999999999999999999999999999934052174135494355430337288171043698951663976857408753709541209067269709945807800772530975896204418690906929357/10000000000000000000000000000000000000000000000000000000000000000000000000000000000000000000000000000000000000000000000000000000000000000000000000000000000000000,
    199999999999999999999999999999999999999999999999999835130435338735888575843220427609247379159942143521816318919643681304484948220279261396536019632758807805945787/100000000000000000000000000000000000000000000000000000000000000000000000000000000000000000000000000000000000000000000000000000000000000000000000000000000000000000,
    99999999999999999999999999999999999999999999999999979391304417341986071980402553451155922394992767940224916273287366823379683643184199239226261176648353492137529/50000000000000000000000000000000000000000000000000000000000000000000000000000000000000000000000000000000000000000000000000000000000000000000000000000000000000000,
    1999999999999999999999999999999999999999999999999999896956522086709930359902012767255779611974963839701121926876851717442297249610482610651955379286433645606043763/1000000000000000000000000000000000000000000000000000000000000000000000000000000000000000000000000000000000000000000000000000000000000000000000000000000000000000000,
    4999999999999999999999999999999999999999999999999999935597826304193706474938757979534862257484352399813200789534034648921029348411951883916194623523269759463983903/2500000000000000000000000000000000000000000000000000000000000000000000000000000000000000000000000000000000000000000000000000000000000000000000000000000000000000000,
    19999999999999999999999999999999999999999999999999999935597826304193706474938757979534862257484352399813200685843035230300927740263301946980875251390581942204035207/10000000000000000000000000000000000000000000000000000000000000000000000000000000000000000000000000000000000000000000000000000000000000000000000000000000000000000000,
    199999999999999999999999999999999999999999999999999999838994565760484266187346894948837155643710880999533001649800713439114755845565348656867613520893524969722620031/100000000000000000000000000000000000000000000000000000000000000000000000000000000000000000000000000000000000000000000000000000000000000000000000000000000000000000000,
    99999999999999999999999999999999999999999999999999999979874320720060533273418361868604644455463860124941625204199874347494420621161515263027683733624724062284469129/50000000000000000000000000000000000000000000000000000000000000000000000000000000000000000000000000000000000000000000000000000000000000000000000000000000000000000000,
    1999999999999999999999999999999999999999999999999999999899371603600302666367091809343023222277319300624708126018467853196978448281389884666287458722514912112758772677/1000000000000000000000000000000000000000000000000000000000000000000000000000000000000000000000000000000000000000000000000000000000000000000000000000000000000000000000,
    19999999999999999999999999999999999999999999999999999999748429009000756665917729523357558055693298251561770315044587433904637586438213654385186796840281837657732198587/10000000000000000000000000000000000000000000000000000000000000000000000000000000000000000000000000000000000000000000000000000000000000000000000000000000000000000000000,
    4999999999999999999999999999999999999999999999999999999984276813062547291619858095209847378480831140722610644690261992758292840804493649379065864646798779812605688457/2500000000000000000000000000000000000000000000000000000000000000000000000000000000000000000000000000000000000000000000000000000000000000000000000000000000000000000000,
    49999999999999999999999999999999999999999999999999999999960692032656368229049645238024618446202077851806526611725639530732765221793799933435159467769672677630887612421/25000000000000000000000000000000000000000000000000000000000000000000000000000000000000000000000000000000000000000000000000000000000000000000000000000000000000000000000,
    199999999999999999999999999999999999999999999999999999999960692032656368229049645238024618446202077851806526611725635667942023501739441385932033169307841609655730960241/100000000000000000000000000000000000000000000000000000000000000000000000000000000000000000000000000000000000000000000000000000000000000000000000000000000000000000000000,
    199999999999999999999999999999999999999999999999999999999990173008164092057262411309506154611550519462951631652931408675561084517931462937264062898673095960665485449299/100000000000000000000000000000000000000000000000000000000000000000000000000000000000000000000000000000000000000000000000000000000000000000000000000000000000000000000000,
    9999999999999999999999999999999999999999999999999999999999877162602051150715780141368826932644381493286895395661642607690062239731945169811991581878245373127854670332609/5000000000000000000000000000000000000000000000000000000000000000000000000000000000000000000000000000000000000000000000000000000000000000000000000000000000000000000000000,
    19999999999999999999999999999999999999999999999999999999999938581301025575357890070684413466322190746643447697830821303750724705273197820293019640394726645766369347943351/10000000000000000000000000000000000000000000000000000000000000000000000000000000000000000000000000000000000000000000000000000000000000000000000000000000000000000000000000,
    3124999999999999999999999999999999999999999999999999999999997600832071311537417580886109901028210576040759675696516457176841722719726723794522484482758892014335150435063/1562500000000000000000000000000000000000000000000000000000000000000000000000000000000000000000000000000000000000000000000000000000000000000000000000000000000000000000000,
    24999999999999999999999999999999999999999999999999999999999995201664142623074835161772219802056421152081519351393032914353222964899449664558708171355437725235713474760639/12500000000000000000000000000000000000000000000000000000000000000000000000000000000000000000000000000000000000000000000000000000000000000000000000000000000000000000000000,
    399999999999999999999999999999999999999999999999999999999999980806656570492299340647088879208225684608326077405572131657412431379057794875204495887811670842149897072933069/200000000000000000000000000000000000000000000000000000000000000000000000000000000000000000000000000000000000000000000000000000000000000000000000000000000000000000000000000,
    1249999999999999999999999999999999999999999999999999999999999985005200445697108859880538186881426316100254747973103227857353372077283432757380399756569649083946607708129451/625000000000000000000000000000000000000000000000000000000000000000000000000000000000000000000000000000000000000000000000000000000000000000000000000000000000000000000000000,
    3999999999999999999999999999999999999999999999999999999999999988004160356557687087904430549505141052880203798378482582285882679674305652308129697274099075514860686290483659/2000000000000000000000000000000000000000000000000000000000000000000000000000000000000000000000000000000000000000000000000000000000000000000000000000000000000000000000000000,
    39999999999999999999999999999999999999999999999999999999999999970010400891394217719761076373762852632200509495946206455714706687943563447084215104103274786441966340803696709/20000000000000000000000000000000000000000000000000000000000000000000000000000000000000000000000000000000000000000000000000000000000000000000000000000000000000000000000000000,
    799999999999999999999999999999999999999999999999999999999999999850052004456971088598805381868814263161002547479731032278573533425665066380813439096663907804278349985365343/400000000000000000000000000000000000000000000000000000000000000000000000000000000000000000000000000000000000000000000000000000000000000000000000000000000000000000000000000,
    399999999999999999999999999999999999999999999999999999999999999981256500557121386074850672733601782895125318434966379034821691677768984833395191248837598909036934944462757233/200000000000000000000000000000000000000000000000000000000000000000000000000000000000000000000000000000000000000000000000000000000000000000000000000000000000000000000000000000,
    1249999999999999999999999999999999999999999999999999999999999999985356641060251082870977088073126392886816655027317483620954446623171248216674663350997071497978492377762327791/625000000000000000000000000000000000000000000000000000000000000000000000000000000000000000000000000000000000000000000000000000000000000000000000000000000000000000000000000000,
    19999999999999999999999999999999999999999999999999999999999999999941426564241004331483908352292505571547266620109269934483817786492599221682283323591830983342207356463450109867/10000000000000000000000000000000000000000000000000000000000000000000000000000000000000000000000000000000000000000000000000000000000000000000000000000000000000000000000000000000,
    199999999999999999999999999999999999999999999999999999999999999999853566410602510828709770880731263928868166550273174836209544466231444447215448727846979144199451758003875773857/100000000000000000000000000000000000000000000000000000000000000000000000000000000000000000000000000000000000000000000000000000000000000000000000000000000000000000000000000000000,
    12499999999999999999999999999999999999999999999999999999999999999997711975165664231698590170011425998888565102348018356815774132284866110085435684883809836963444298433049818729/6250000000000000000000000000000000000000000000000000000000000000000000000000000000000000000000000000000000000000000000000000000000000000000000000000000000000000000000000000000,
    399999999999999999999999999999999999999999999999999999999999999999981695801325313853588721360091407991108520818784146854526193058278928461878874076092880271378210116892877069357/200000000000000000000000000000000000000000000000000000000000000000000000000000000000000000000000000000000000000000000000000000000000000000000000000000000000000000000000000000000,
    9999999999999999999999999999999999999999999999999999999999999999999885598758283211584929508500571299944428255117400917840788706614243302232360757658428004158099212807812479370239/5000000000000000000000000000000000000000000000000000000000000000000000000000000000000000000000000000000000000000000000000000000000000000000000000000000000000000000000000000000000,
    3999999999999999999999999999999999999999999999999999999999999999999988559875828321158492950850057129994442825511740091784078870661424330206876520632913987977359556270212047879193/2000000000000000000000000000000000000000000000000000000000000000000000000000000000000000000000000000000000000000000000000000000000000000000000000000000000000000000000000000000000,
    199999999999999999999999999999999999999999999999999999999999999999999856998447854014481161885625714124930535318896751147300985883267804127534832898121022310846837062719621848309191/100000000000000000000000000000000000000000000000000000000000000000000000000000000000000000000000000000000000000000000000000000000000000000000000000000000000000000000000000000000000,
    199999999999999999999999999999999999999999999999999999999999999999999964249611963503620290471406428531232633829724187786825246470816951031880512998918355419032324428763778665191003/100000000000000000000000000000000000000000000000000000000000000000000000000000000000000000000000000000000000000000000000000000000000000000000000000000000000000000000000000000000000,
    999999999999999999999999999999999999999999999999999999999999999999999955312014954379525363089258035664040792287155234733531558088521188789849642740644225474203097774418433707461787/500000000000000000000000000000000000000000000000000000000000000000000000000000000000000000000000000000000000000000000000000000000000000000000000000000000000000000000000000000000000,
    9999999999999999999999999999999999999999999999999999999999999999999999888280037385948813407723145089160101980717888086833828895221302971974623482784108239435765677085085903253637613/5000000000000000000000000000000000000000000000000000000000000000000000000000000000000000000000000000000000000000000000000000000000000000000000000000000000000000000000000000000000000,
    199999999999999999999999999999999999999999999999999999999999999999999999441400186929744067038615725445800509903589440434169144476106514859873116633836163291866650801236729289999417/100000000000000000000000000000000000000000000000000000000000000000000000000000000000000000000000000000000000000000000000000000000000000000000000000000000000000000000000000000000000,
    199999999999999999999999999999999999999999999999999999999999999999999999860350046732436016759653931361450127475897360108542286119026628714968279109703767203884651601297388558358056059/100000000000000000000000000000000000000000000000000000000000000000000000000000000000000000000000000000000000000000000000000000000000000000000000000000000000000000000000000000000000000,
    49999999999999999999999999999999999999999999999999999999999999999999999991271877920777251047478370710090632967243585006783892882439164294685517443594684299944634301659027507332662907/25000000000000000000000000000000000000000000000000000000000000000000000000000000000000000000000000000000000000000000000000000000000000000000000000000000000000000000000000000000000000,
    1999999999999999999999999999999999999999999999999999999999999999999999999912718779207772510474783707100906329672435850067838928824391642946855174434042340123700951958035126879414840079/1000000000000000000000000000000000000000000000000000000000000000000000000000000000000000000000000000000000000000000000000000000000000000000000000000000000000000000000000000000000000000,
    9999999999999999999999999999999999999999999999999999999999999999999999999890898474009715638093479633876132912090544812584798661030489553683568968041957768005955755241745424788671116039/5000000000000000000000000000000000000000000000000000000000000000000000000000000000000000000000000000000000000000000000000000000000000000000000000000000000000000000000000000000000000000,
    19999999999999999999999999999999999999999999999999999999999999999999999999945449237004857819046739816938066456045272406292399330515244776841784484020904489359394073282647901918010878763/10000000000000000000000000000000000000000000000000000000000000000000000000000000000000000000000000000000000000000000000000000000000000000000000000000000000000000000000000000000000000000,
    49999999999999999999999999999999999999999999999999999999999999999999999999965905773128036136904212385586291535028295253932749581572027985526115302513053681686561326373807312061831068093/25000000000000000000000000000000000000000000000000000000000000000000000000000000000000000000000000000000000000000000000000000000000000000000000000000000000000000000000000000000000000000,
    19999999999999999999999999999999999999999999999999999999999999999999999999996590577312803613690421238558629153502829525393274958157202798552611530251305077564579633401684540540259963531/10000000000000000000000000000000000000000000000000000000000000000000000000000000000000000000000000000000000000000000000000000000000000000000000000000000000000000000000000000000000000000,
    999999999999999999999999999999999999999999999999999999999999999999999999999957382216410045171130265481982864418785369067415936976965034981907644128141312561419506357409506160922239721393/500000000000000000000000000000000000000000000000000000000000000000000000000000000000000000000000000000000000000000000000000000000000000000000000000000000000000000000000000000000000000000,
    9999999999999999999999999999999999999999999999999999999999999999999999999999893455541025112927825663704957161046963422668539842442412587454769110320353280835962678980954046279911218164267/5000000000000000000000000000000000000000000000000000000000000000000000000000000000000000000000000000000000000000000000000000000000000000000000000000000000000000000000000000000000000000000,
    4999999999999999999999999999999999999999999999999999999999999999999999999999986681942628139115978207963119645130870427833567480305301573431846138790044160086758269656601452062414077859933/2500000000000000000000000000000000000000000000000000000000000000000000000000000000000000000000000000000000000000000000000000000000000000000000000000000000000000000000000000000000000000000,
    199999999999999999999999999999999999999999999999999999999999999999999999999999866819426281391159782079631196451308704278335674803053015734318461387900441600823240033525970011317703717572829/100000000000000000000000000000000000000000000000000000000000000000000000000000000000000000000000000000000000000000000000000000000000000000000000000000000000000000000000000000000000000000000,
    199999999999999999999999999999999999999999999999999999999999999999999999999999966704856570347789945519907799112827176069583918700763253933579615346975110400203038591941489720997773613079051/100000000000000000000000000000000000000000000000000000000000000000000000000000000000000000000000000000000000000000000000000000000000000000000000000000000000000000000000000000000000000000000,
    6249999999999999999999999999999999999999999999999999999999999999999999999999999739881691955842108949374279680568962313043624364849712921356090744898243050001580826076808508012030160421879/3125000000000000000000000000000000000000000000000000000000000000000000000000000000000000000000000000000000000000000000000000000000000000000000000000000000000000000000000000000000000000000,
    19999999999999999999999999999999999999999999999999999999999999999999999999999999791905353564673687159499423744455169850434899491879770337084872595918594440001263578276899930322971139151442983/10000000000000000000000000000000000000000000000000000000000000000000000000000000000000000000000000000000000000000000000000000000000000000000000000000000000000000000000000000000000000000000000,
    19999999999999999999999999999999999999999999999999999999999999999999999999999999947976338391168421789874855936113792462608724872969942584271218148979648610000315826907690802825326972963731983/10000000000000000000000000000000000000000000000000000000000000000000000000000000000000000000000000000000000000000000000000000000000000000000000000000000000000000000000000000000000000000000000,
    199999999999999999999999999999999999999999999999999999999999999999999999999999999869940845977921054474687139840284481156521812182424856460678045372449121525000789524980768144716182550019249481/100000000000000000000000000000000000000000000000000000000000000000000000000000000000000000000000000000000000000000000000000000000000000000000000000000000000000000000000000000000000000000000000,
    399999999999999999999999999999999999999999999999999999999999999999999999999999999934970422988960527237343569920142240578260906091212428230339022686224560762500394757204326714564699414710864681/200000000000000000000000000000000000000000000000000000000000000000000000000000000000000000000000000000000000000000000000000000000000000000000000000000000000000000000000000000000000000000000000,
    1999999999999999999999999999999999999999999999999999999999999999999999999999999999918713028736200659046679462400177800722826132614015535287923778357780700953125493444853515468895439312045218333/1000000000000000000000000000000000000000000000000000000000000000000000000000000000000000000000000000000000000000000000000000000000000000000000000000000000000000000000000000000000000000000000000,
    19999999999999999999999999999999999999999999999999999999999999999999999999999999999796782571840501647616698656000444501807065331535038838219809445894451752382813733611101355594544576432398444259/10000000000000000000000000000000000000000000000000000000000000000000000000000000000000000000000000000000000000000000000000000000000000000000000000000000000000000000000000000000000000000000000000,
    19999999999999999999999999999999999999999999999999999999999999999999999999999999999949195642960125411904174664000111125451766332883759709554952361473612938095703433402710811831280267742617448467/10000000000000000000000000000000000000000000000000000000000000000000000000000000000000000000000000000000000000000000000000000000000000000000000000000000000000000000000000000000000000000000000000,
    24999999999999999999999999999999999999999999999999999999999999999999999999999999999984123638425039191220054582500034726703676979026174909235922612960504043154907322938342087520137905828514658693/12500000000000000000000000000000000000000000000000000000000000000000000000000000000000000000000000000000000000000000000000000000000000000000000000000000000000000000000000000000000000000000000000,
    62499999999999999999999999999999999999999999999999999999999999999999999999999999999990077274015649494512534114062521704189798111891359318272451633100315026971817076836463017016158507105157084503/31250000000000000000000000000000000000000000000000000000000000000000000000000000000000000000000000000000000000000000000000000000000000000000000000000000000000000000000000000000000000000000000000,
    15624999999999999999999999999999999999999999999999999999999999999999999999999999999999379829625978093407033382128907606511862381993209957392028227068769689185738567302278926255948536630983808763/7812500000000000000000000000000000000000000000000000000000000000000000000000000000000000000000000000000000000000000000000000000000000000000000000000000000000000000000000000000000000000000000000,
    3999999999999999999999999999999999999999999999999999999999999999999999999999999999999960309096062597978050136456250086816759192447565437273089806532401260107887268307345851083459724423373547616537/2000000000000000000000000000000000000000000000000000000000000000000000000000000000000000000000000000000000000000000000000000000000000000000000000000000000000000000000000000000000000000000000000000,
    999999999999999999999999999999999999999999999999999999999999999999999999999999999999997519318503912373628133528515630426047449527972839829568112908275078756742954269209115689639342433945074598779/500000000000000000000000000000000000000000000000000000000000000000000000000000000000000000000000000000000000000000000000000000000000000000000000000000000000000000000000000000000000000000000000000,
    49999999999999999999999999999999999999999999999999999999999999999999999999999999999999968991481298904670351669106445380325593119099660497869601411353438484459286928365113946110876498103951644587067/25000000000000000000000000000000000000000000000000000000000000000000000000000000000000000000000000000000000000000000000000000000000000000000000000000000000000000000000000000000000000000000000000000,
    999999999999999999999999999999999999999999999999999999999999999999999999999999999999999844957406494523351758345532226901627965595498302489348007056767192422296434641825569730542363387619305988063247/500000000000000000000000000000000000000000000000000000000000000000000000000000000000000000000000000000000000000000000000000000000000000000000000000000000000000000000000000000000000000000000000000000,
    1999999999999999999999999999999999999999999999999999999999999999999999999999999999999999922478703247261675879172766113450813982797749151244674003528383596211148217320912784865269679305947096464672613/1000000000000000000000000000000000000000000000000000000000000000000000000000000000000000000000000000000000000000000000000000000000000000000000000000000000000000000000000000000000000000000000000000000,
    19999999999999999999999999999999999999999999999999999999999999999999999999999999999999999806196758118154189697931915283627034956994372878111685008820958990527870543302281962163173259272453643330832151/10000000000000000000000000000000000000000000000000000000000000000000000000000000000000000000000000000000000000000000000000000000000000000000000000000000000000000000000000000000000000000000000000000000,
    1249999999999999999999999999999999999999999999999999999999999999999999999999999999999999996971824345596159214030186176306672421203037076220495078262827484226997977239098155658799578508192970607392497/625000000000000000000000000000000000000000000000000000000000000000000000000000000000000000000000000000000000000000000000000000000000000000000000000000000000000000000000000000000000000000000000000000,
    199999999999999999999999999999999999999999999999999999999999999999999999999999999999999999878872973823846368561207447052266896848121483048819803130513099369079919089563926226351983103648327648599182327/100000000000000000000000000000000000000000000000000000000000000000000000000000000000000000000000000000000000000000000000000000000000000000000000000000000000000000000000000000000000000000000000000000000,
    1999999999999999999999999999999999999999999999999999999999999999999999999999999999999999999697182434559615921403018617630667242120303707622049507826282748422699797723909815565879957736196199636687632347/1000000000000000000000000000000000000000000000000000000000000000000000000000000000000000000000000000000000000000000000000000000000000000000000000000000000000000000000000000000000000000000000000000000000,
    199999999999999999999999999999999999999999999999999999999999999999999999999999999999999999992429560863990398035075465440766681053007592690551237695657068710567494943097745389146998943261626119137126287/100000000000000000000000000000000000000000000000000000000000000000000000000000000000000000000000000000000000000000000000000000000000000000000000000000000000000000000000000000000000000000000000000000000,
    3999999999999999999999999999999999999999999999999999999999999999999999999999999999999999999962147804319951990175377327203833405265037963452756188478285343552837474715488726945734994716129032005960550783/2000000000000000000000000000000000000000000000000000000000000000000000000000000000000000000000000000000000000000000000000000000000000000000000000000000000000000000000000000000000000000000000000000000000,
    799999999999999999999999999999999999999999999999999999999999999999999999999999999999999999998107390215997599508768866360191670263251898172637809423914267177641873735774436347286749735804212867926464031/400000000000000000000000000000000000000000000000000000000000000000000000000000000000000000000000000000000000000000000000000000000000000000000000000000000000000000000000000000000000000000000000000000000,
    199999999999999999999999999999999999999999999999999999999999999999999999999999999999999999999881711888499849969298054147511979391453243635789863088994641698602617108485902271705421858487728324052098322123/100000000000000000000000000000000000000000000000000000000000000000000000000000000000000000000000000000000000000000000000000000000000000000000000000000000000000000000000000000000000000000000000000000000000,
    62499999999999999999999999999999999999999999999999999999999999999999999999999999999999999999990758741289050778851410480274373389957284659046083053827706382703329461600461114976986082694353092109669679857/31250000000000000000000000000000000000000000000000000000000000000000000000000000000000000000000000000000000000000000000000000000000000000000000000000000000000000000000000000000000000000000000000000000000,
    1999999999999999999999999999999999999999999999999999999999999999999999999999999999999999999999926069930312406230811283842194987119658277272368664430621651061626635692803688919815888661554823370463556435739/1000000000000000000000000000000000000000000000000000000000000000000000000000000000000000000000000000000000000000000000000000000000000000000000000000000000000000000000000000000000000000000000000000000000000,
    19999999999999999999999999999999999999999999999999999999999999999999999999999999999999999999999815174825781015577028209605487467799145693180921661076554127654066589232009222299539721653887057572150265462399/10000000000000000000000000000000000000000000000000000000000000000000000000000000000000000000000000000000000000000000000000000000000000000000000000000000000000000000000000000000000000000000000000000000000000,
    4999999999999999999999999999999999999999999999999999999999999999999999999999999999999999999999988448426611313473564263100342966737446605823807603817284632978379161827000576393721232603367941084915506815979/2500000000000000000000000000000000000000000000000000000000000000000000000000000000000000000000000000000000000000000000000000000000000000000000000000000000000000000000000000000000000000000000000000000000000,
    99999999999999999999999999999999999999999999999999999999999999999999999999999999999999999999999942242133056567367821315501714833687233029119038019086423164891895809135002881968606163016839705407897678110619/50000000000000000000000000000000000000000000000000000000000000000000000000000000000000000000000000000000000000000000000000000000000000000000000000000000000000000000000000000000000000000000000000000000000000,
    3999999999999999999999999999999999999999999999999999999999999999999999999999999999999999999999999422421330565673678213155017148336872330291190380190864231648918958091350028819686061630168397054037277141183/2000000000000000000000000000000000000000000000000000000000000000000000000000000000000000000000000000000000000000000000000000000000000000000000000000000000000000000000000000000000000000000000000000000000000,
    499999999999999999999999999999999999999999999999999999999999999999999999999999999999999999999999981950666580177302444161094285885527260321599699380964507239028717440354688400615189425942762407938339132225069/250000000000000000000000000000000000000000000000000000000000000000000000000000000000000000000000000000000000000000000000000000000000000000000000000000000000000000000000000000000000000000000000000000000000000,
    19999999999999999999999999999999999999999999999999999999999999999999999999999999999999999999999999819506665801773024441610942858855272603215996993809645072390287174403546884006151894259427624079382576876158441/10000000000000000000000000000000000000000000000000000000000000000000000000000000000000000000000000000000000000000000000000000000000000000000000000000000000000000000000000000000000000000000000000000000000000000,
    3999999999999999999999999999999999999999999999999999999999999999999999999999999999999999999999999990975333290088651222080547142942763630160799849690482253619514358720177344200307594712971381203969118663231769/2000000000000000000000000000000000000000000000000000000000000000000000000000000000000000000000000000000000000000000000000000000000000000000000000000000000000000000000000000000000000000000000000000000000000000,
    99999999999999999999999999999999999999999999999999999999999999999999999999999999999999999999999999943595833063054070138003419643392272688504999060565514085121964742001108401251922466956071132524806975738048317/50000000000000000000000000000000000000000000000000000000000000000000000000000000000000000000000000000000000000000000000000000000000000000000000000000000000000000000000000000000000000000000000000000000000000000,
    999999999999999999999999999999999999999999999999999999999999999999999999999999999999999999999999999858989582657635175345008549108480681721262497651413785212804911855002771003129806167390177831312017429403151893/500000000000000000000000000000000000000000000000000000000000000000000000000000000000000000000000000000000000000000000000000000000000000000000000000000000000000000000000000000000000000000000000000000000000000000,
    399999999999999999999999999999999999999999999999999999999999999999999999999999999999999999999999999985898958265763517534500854910848068172126249765141378521280491185500277100312980616739017783131201742691765967/200000000000000000000000000000000000000000000000000000000000000000000000000000000000000000000000000000000000000000000000000000000000000000000000000000000000000000000000000000000000000000000000000000000000000000,
    4999999999999999999999999999999999999999999999999999999999999999999999999999999999999999999999999999955934244580510992295315171596400213037894530516066807879001534954688365938478064427309430572285005445717589567/2500000000000000000000000000000000000000000000000000000000000000000000000000000000000000000000000000000000000000000000000000000000000000000000000000000000000000000000000000000000000000000000000000000000000000000,
    19999999999999999999999999999999999999999999999999999999999999999999999999999999999999999999999999999955934244580510992295315171596400213037894530516066807879001534954688365938478064427309430572285005445669044797/10000000000000000000000000000000000000000000000000000000000000000000000000000000000000000000000000000000000000000000000000000000000000000000000000000000000000000000000000000000000000000000000000000000000000000000,
    24999999999999999999999999999999999999999999999999999999999999999999999999999999999999999999999999999986229451431409685092285991123875066574342040786270877462187979673340114355774395133534197053839064201767783939/12500000000000000000000000000000000000000000000000000000000000000000000000000000000000000000000000000000000000000000000000000000000000000000000000000000000000000000000000000000000000000000000000000000000000000000,
    99999999999999999999999999999999999999999999999999999999999999999999999999999999999999999999999999999986229451431409685092285991123875066574342040786270877462187979673340114355774395133534197053839064201766835799/50000000000000000000000000000000000000000000000000000000000000000000000000000000000000000000000000000000000000000000000000000000000000000000000000000000000000000000000000000000000000000000000000000000000000000000,
    99999999999999999999999999999999999999999999999999999999999999999999999999999999999999999999999999999996557362857852421273071497780968766643585510196567719365546994918335028588943598783383549263459766050441649691/50000000000000000000000000000000000000000000000000000000000000000000000000000000000000000000000000000000000000000000000000000000000000000000000000000000000000000000000000000000000000000000000000000000000000000000,
    2499999999999999999999999999999999999999999999999999999999999999999999999999999999999999999999999999999978483517861577632956696861131054791522409438728548246034668718239593928680897492396147182896623537815260217977/1250000000000000000000000000000000000000000000000000000000000000000000000000000000000000000000000000000000000000000000000000000000000000000000000000000000000000000000000000000000000000000000000000000000000000000000,
    19999999999999999999999999999999999999999999999999999999999999999999999999999999999999999999999999999999956967035723155265913393722262109583044818877457096492069337436479187857361794984792294365793247075630520389659/10000000000000000000000000000000000000000000000000000000000000000000000000000000000000000000000000000000000000000000000000000000000000000000000000000000000000000000000000000000000000000000000000000000000000000000000,
    199999999999999999999999999999999999999999999999999999999999999999999999999999999999999999999999999999999892417589307888164783484305655273957612047193642741230173343591197969643404487461980735914483117689076300945213/100000000000000000000000000000000000000000000000000000000000000000000000000000000000000000000000000000000000000000000000000000000000000000000000000000000000000000000000000000000000000000000000000000000000000000000000,
    1999999999999999999999999999999999999999999999999999999999999999999999999999999999999999999999999999999999731043973269720411958710764138184894030117984106853075433358977994924108511218654951839786207794222690752344949/1000000000000000000000000000000000000000000000000000000000000000000000000000000000000000000000000000000000000000000000000000000000000000000000000000000000000000000000000000000000000000000000000000000000000000000000000]

/-- Rational upper bound on pi accurate to 103 decimal places. -/
theorem pi_lt_big : Real.pi < (31415926535897932384626433832795028841971693993751058209749445923078164062862089986280348253421170679822 : Real) / 10000000000000000000000000000000000000000000000000000000000000000000000000000000000000000000000000000000 := by
  pi_upper_bound [141421356237309504880168872420969807856967187537694807317667973799073247846210703885038753432764157273501384623/100000000000000000000000000000000000000000000000000000000000000000000000000000000000000000000000000000000000000,
    461939766255643378064091594698394143411208312931821243057548865640267503750551179357419967425172298048981512891/250000000000000000000000000000000000000000000000000000000000000000000000000000000000000000000000000000000000000,
    1961570560806460898252364472268478073947867461786672190005832177090613027099210127830129971706601526519789732559/1000000000000000000000000000000000000000000000000000000000000000000000000000000000000000000000000000000000000000,
    4975923633360984431224184765547399607877374343649285309168064828924450834472932689862645421348241951438622465591/2500000000000000000000000000000000000000000000000000000000000000000000000000000000000000000000000000000000000000,
    199759091241034478542954320951820138888640722940922358868563414737121981190431480766237848853278834208232855060253/100000000000000000000000000000000000000000000000000000000000000000000000000000000000000000000000000000000000000000,
    49984940934810211005788282483308609842503054062886481232206189396319083437735738752095080276383153663184276278709/25000000000000000000000000000000000000000000000000000000000000000000000000000000000000000000000000000000000000000,
    62495293864946533807602905699773951521912904300138614390255229562592732586680258342459385884933552350297661604451/31250000000000000000000000000000000000000000000000000000000000000000000000000000000000000000000000000000000000000,
    999981175282601142656990437728567716173917250944335091940157695080821069476590065544506226027002572168482368832021/500000000000000000000000000000000000000000000000000000000000000000000000000000000000000000000000000000000000000000,
    1999990587619152343023160251400239799105975267244375308221473973487646602226286704782019247656260815023596081008989/1000000000000000000000000000000000000000000000000000000000000000000000000000000000000000000000000000000000000000000,
    199999764690340381985805142034305203809653584577953007844772505891022361715693959326088070813277970339978493843497073/100000000000000000000000000000000000000000000000000000000000000000000000000000000000000000000000000000000000000000000,
    49999985293144110958011410886938283855813194967465080069589799594882857473153131217316375422480094358622150839289221/25000000000000000000000000000000000000000000000000000000000000000000000000000000000000000000000000000000000000000000,
    1999999852931435702289462961414775713896402311377845538129464291142688323835278344213794393823545120308556563073571671/1000000000000000000000000000000000000000000000000000000000000000000000000000000000000000000000000000000000000000000000,
    399999992646571717523338766161163885802030420497112141350125515621839531888454575469070770125069508269831251243275291/200000000000000000000000000000000000000000000000000000000000000000000000000000000000000000000000000000000000000000000,
    19999999908082146257819438662792122979177886063789056480615056533571519407830625509536782830947791707907282502914365947/10000000000000000000000000000000000000000000000000000000000000000000000000000000000000000000000000000000000000000000000,
    4999999994255134137813366538972770542002687080971410617089145691674230920213736066147618564413610859841240343511709071/2500000000000000000000000000000000000000000000000000000000000000000000000000000000000000000000000000000000000000000000,
    39999999988510268273976558888745671043563578316731410108428388318582597534563166208619180490688074747991642378949392819/20000000000000000000000000000000000000000000000000000000000000000000000000000000000000000000000000000000000000000000000,
    999999999928189176709775095883850490260480333109515801953041391225126002377647550355327985422736601767406320171266790763/500000000000000000000000000000000000000000000000000000000000000000000000000000000000000000000000000000000000000000000000,
    1999999999964094588354565248295568214759278374992551601709559185648751560475090410101901362212625956628610067269978026741/1000000000000000000000000000000000000000000000000000000000000000000000000000000000000000000000000000000000000000000000000,
    19999999999910236470886211683459946488830292029306281823619867270156693618771713371182267353305449774258140418942612545073/10000000000000000000000000000000000000000000000000000000000000000000000000000000000000000000000000000000000000000000000000,
    199999999999775591177215403310350507300769844382104523005493942278184747137043457825291338845567296789673328023695585669423/100000000000000000000000000000000000000000000000000000000000000000000000000000000000000000000000000000000000000000000000000,
    4999999999998597444857596073973597922260090047500151069398637670319893925570613463262382085337641557446976318230769392653/2500000000000000000000000000000000000000000000000000000000000000000000000000000000000000000000000000000000000000000000000,
    999999999999929872242879801239728736758210543146733864852351182219044723649055794993141280963258206586163927596172483290571/500000000000000000000000000000000000000000000000000000000000000000000000000000000000000000000000000000000000000000000000000,
    999999999999982468060719950156247736729875318948515209613121730434024007646151254572605847554762816730860913353585765585633/500000000000000000000000000000000000000000000000000000000000000000000000000000000000000000000000000000000000000000000000000,
    19999999999999912340303599750589133124324779106699115367600670275658405603537722408947416944963641625446077437386152439859173/10000000000000000000000000000000000000000000000000000000000000000000000000000000000000000000000000000000000000000000000000000,
    199999999999999780850758999376352766836234074205158789500005299098229476058269843655174349282002096664009570634193997986229551/100000000000000000000000000000000000000000000000000000000000000000000000000000000000000000000000000000000000000000000000000000,
    39999999999999989042537949968816137517129480290326946251032479400041620577950301377547806529636875482310697977735644984256829/20000000000000000000000000000000000000000000000000000000000000000000000000000000000000000000000000000000000000000000000000000,
    499999999999999965757931093652549257221746638860370319606087538529365677374284344344469422462965163823468602664793309758705139/250000000000000000000000000000000000000000000000000000000000000000000000000000000000000000000000000000000000000000000000000000,
    1999999999999999965757931093652548964091925892098639954063230040684542354553518952074708923998104586740805202624569980168617289/1000000000000000000000000000000000000000000000000000000000000000000000000000000000000000000000000000000000000000000000000000000,
    19999999999999999914394827734131372227023676763520517622524139125254289659784575805482515940303129441983550408196617813848258133/10000000000000000000000000000000000000000000000000000000000000000000000000000000000000000000000000000000000000000000000000000000,
    19999999999999999978598706933532843045305535567959749251963763000905254939254962152671011998648127378481583134718326413026502343/10000000000000000000000000000000000000000000000000000000000000000000000000000000000000000000000000000000000000000000000000000000,
    19999999999999999994649676733383210760610734915557413553195288595483922785647045734532885784746941261190847849797239326331444199/10000000000000000000000000000000000000000000000000000000000000000000000000000000000000000000000000000000000000000000000000000000,
    999999999999999999933120959167290134505397783393116032665430125968989320052125896847490574884541838585779970738185724105534085733/500000000000000000000000000000000000000000000000000000000000000000000000000000000000000000000000000000000000000000000000000000000,
    249999999999999999995820059947955633406552417664392382717377689535603908276202514726423521735545915389027156620416620007981900183/125000000000000000000000000000000000000000000000000000000000000000000000000000000000000000000000000000000000000000000000000000000,
    4999999999999999999979100299739778167032718408574865201931623648427472783383506463274070807278487287835638835444521723235687807099/2500000000000000000000000000000000000000000000000000000000000000000000000000000000000000000000000000000000000000000000000000000000,
    199999999999999999999791002997397781670327074886380910240178074372036658218395245032780498524691032677723886379109711932358085290003/100000000000000000000000000000000000000000000000000000000000000000000000000000000000000000000000000000000000000000000000000000000000,
    199999999999999999999947750749349445417581761896634743698848383459211289848626852934383046411481443801494310227365030940387608387479/100000000000000000000000000000000000000000000000000000000000000000000000000000000000000000000000000000000000000000000000000000000000,
    399999999999999999999973875374674722708790880095197311366774674837825191981222963876752050080281901835803751292452796169311492547343/200000000000000000000000000000000000000000000000000000000000000000000000000000000000000000000000000000000000000000000000000000000000,
    1999999999999999999999967344218343403385988599852396620307640369518595745415809500302055620577164166023436429221432442857061719532569/1000000000000000000000000000000000000000000000000000000000000000000000000000000000000000000000000000000000000000000000000000000000000,
    9999999999999999999999959180272929254232485749732183269478041720014280046515161855599451566752375896337488699274031385074318556935039/5000000000000000000000000000000000000000000000000000000000000000000000000000000000000000000000000000000000000000000000000000000000000,
    199999999999999999999999795901364646271162428748556775715007072672716444332232754481912687237913776013102663899144455055187098870542249/100000000000000000000000000000000000000000000000000000000000000000000000000000000000000000000000000000000000000000000000000000000000000,
    49999999999999999999999987243835290391947651796783171284806955543179856584406550967792589024515981199222880259471834794747350263976047/25000000000000000000000000000000000000000000000000000000000000000000000000000000000000000000000000000000000000000000000000000000000000,
    1999999999999999999999999872438352903919476517967827644854617089184636262877911059237022172605342297960442303460076759048750431876517987/1000000000000000000000000000000000000000000000000000000000000000000000000000000000000000000000000000000000000000000000000000000000000000,
    249999999999999999999999996013698528247483641186494582120507936644463927723011132199328424918566451702544581795387394608939656408732367/125000000000000000000000000000000000000000000000000000000000000000000000000000000000000000000000000000000000000000000000000000000000000,
    19999999999999999999999999920273970564949672823729891483504164495926498777000604068530227211392964782531857368264108602278705677291749149/10000000000000000000000000000000000000000000000000000000000000000000000000000000000000000000000000000000000000000000000000000000000000000,
    4999999999999999999999999995017123160309354551483118215236104121042862739539731211567230748192470186478352114588168055499600829974182237/2500000000000000000000000000000000000000000000000000000000000000000000000000000000000000000000000000000000000000000000000000000000000000,
    99999999999999999999999999975085615801546772757415591073076887905273634405170147878668017200340815425916929339941825598868717688038263421/50000000000000000000000000000000000000000000000000000000000000000000000000000000000000000000000000000000000000000000000000000000000000000,
    999999999999999999999999999937714039503866931893538977680752449325721161455095052084569137198124196394192824138691592746039060390388793547/500000000000000000000000000000000000000000000000000000000000000000000000000000000000000000000000000000000000000000000000000000000000000000,
    1999999999999999999999999999968857019751933465946769488840133753358177715157818736340768179734194887223301076865120961837721430910700149039/1000000000000000000000000000000000000000000000000000000000000000000000000000000000000000000000000000000000000000000000000000000000000000000,
    19999999999999999999999999999922142549379833664866923722100182838830017496913466347288472116351269237652369608003469774228555678579490929583/10000000000000000000000000000000000000000000000000000000000000000000000000000000000000000000000000000000000000000000000000000000000000000000,
    99999999999999999999999999999902678186724792081083654652625181190860825998960245279872012495292168742755243780606366699696944448408488407777/50000000000000000000000000000000000000000000000000000000000000000000000000000000000000000000000000000000000000000000000000000000000000000000,
    49999999999999999999999999999987834773340599010135456831578146168930206503864356045789046009984356867042262873488373484778683013370714733081/25000000000000000000000000000000000000000000000000000000000000000000000000000000000000000000000000000000000000000000000000000000000000000000,
    399999999999999999999999999999975669546681198020270913663156291597896714634725874784480614243960122490631273412505693821466497145443338544353/200000000000000000000000000000000000000000000000000000000000000000000000000000000000000000000000000000000000000000000000000000000000000000000,
    199999999999999999999999999999996958693335149752533864207894536426613223755184395682213280599994395201138556126775621457651182233609134664653/100000000000000000000000000000000000000000000000000000000000000000000000000000000000000000000000000000000000000000000000000000000000000000000,
    19999999999999999999999999999999923967333378743813346605197363410520806434041132775393789538871730454911911010804569081848650165374097726857669/10000000000000000000000000000000000000000000000000000000000000000000000000000000000000000000000000000000000000000000000000000000000000000000000,
    39999999999999999999999999999999961983666689371906673302598681705242337697040756748114201959919849032146765669300317827368842390799642376270919/20000000000000000000000000000000000000000000000000000000000000000000000000000000000000000000000000000000000000000000000000000000000000000000000,
    199999999999999999999999999999999952479583361714883341628248352131547276646307255422773160946926056227807958643737566746245948708372304901215253/100000000000000000000000000000000000000000000000000000000000000000000000000000000000000000000000000000000000000000000000000000000000000000000000,
    79999999999999999999999999999999995247958336171488334162824835213154586527755883279468076307118261746213024799432148624050598414215846577636171/40000000000000000000000000000000000000000000000000000000000000000000000000000000000000000000000000000000000000000000000000000000000000000000000,
    999999999999999999999999999999999985149869800535901044258827610041107972636053664730518019875702111803345493931109088573318109365498009156484361/500000000000000000000000000000000000000000000000000000000000000000000000000000000000000000000000000000000000000000000000000000000000000000000000,
    4999999999999999999999999999999999981437337250669876305323534512551384931337822246376328862787114372206191049313019466334250049311333675444704837/2500000000000000000000000000000000000000000000000000000000000000000000000000000000000000000000000000000000000000000000000000000000000000000000000,
    99999999999999999999999999999999999907186686253349381526617672562756924613617555188710620986363680276595966683962875267780476673544002863100889223/50000000000000000000000000000000000000000000000000000000000000000000000000000000000000000000000000000000000000000000000000000000000000000000000000,
    99999999999999999999999999999999999976796671563337345381654418140689231150712416544479466288617676845121804885203452774734558685873205340375034039/50000000000000000000000000000000000000000000000000000000000000000000000000000000000000000000000000000000000000000000000000000000000000000000000000,
    999999999999999999999999999999999999941991678908343363454136045351723077875098558703262297622810915097787520471793992666202079673393843775567541871/500000000000000000000000000000000000000000000000000000000000000000000000000000000000000000000000000000000000000000000000000000000000000000000000000,
    124999999999999999999999999999999999998187239965885730107941751417241346183583685563711818924941487370126039766765132280434459550526222948519249163/62500000000000000000000000000000000000000000000000000000000000000000000000000000000000000000000000000000000000000000000000000000000000000000000000,
    19999999999999999999999999999999999999927489598635429204317670056689653847343215978590821478239945957538243388190820514760828515534919913665698456171/10000000000000000000000000000000000000000000000000000000000000000000000000000000000000000000000000000000000000000000000000000000000000000000000000000,
    19999999999999999999999999999999999999981872399658857301079417514172413461835795779400352164637629393305385959392718572715536726101886670999538908003/10000000000000000000000000000000000000000000000000000000000000000000000000000000000000000000000000000000000000000000000000000000000000000000000000000,
    99999999999999999999999999999999999999977340499573571626349271892715516827294742156985642329258800149106990296848714916570607028935652598568389528691/50000000000000000000000000000000000000000000000000000000000000000000000000000000000000000000000000000000000000000000000000000000000000000000000000000,
    1999999999999999999999999999999999999999886702497867858131746359463577584136473707575847214300621205004879023793753345458516477365744137159299012097071/1000000000000000000000000000000000000000000000000000000000000000000000000000000000000000000000000000000000000000000000000000000000000000000000000000000,
    9999999999999999999999999999999999999999858378122334822664682949329471980170592133466971206205253757587143802338913485221776220023875015434085610035477/5000000000000000000000000000000000000000000000000000000000000000000000000000000000000000000000000000000000000000000000000000000000000000000000000000000,
    19999999999999999999999999999999999999999929189061167411332341474664735990085296066608130876643811535209952528994046968035716494102230980662286286015517/10000000000000000000000000000000000000000000000000000000000000000000000000000000000000000000000000000000000000000000000000000000000000000000000000000000,
    49999999999999999999999999999999999999999955743163229632082713421665459993803310041610495121893192312071279803718871577744952226491116257805651474633707/25000000000000000000000000000000000000000000000000000000000000000000000000000000000000000000000000000000000000000000000000000000000000000000000000000000,
    39999999999999999999999999999999999999999991148632645926416542684333091998760662008321119690578178967542508934398653926685121915965373265552516775370043/20000000000000000000000000000000000000000000000000000000000000000000000000000000000000000000000000000000000000000000000000000000000000000000000000000000,
    1999999999999999999999999999999999999999999889357908074080206783554163649984508275104010935714100801172807152222654672868364434795232704081291105219408981/1000000000000000000000000000000000000000000000000000000000000000000000000000000000000000000000000000000000000000000000000000000000000000000000000000000000,
    19999999999999999999999999999999999999999999723394770185200516958885409124961270687760025426523922980481096499645806368911411343766596267627555910686808687/10000000000000000000000000000000000000000000000000000000000000000000000000000000000000000000000000000000000000000000000000000000000000000000000000000000000,
    9999999999999999999999999999999999999999999965424346273150064619860676140620158835970003118541698840608545769302262348824567050995152905138662948482232953/5000000000000000000000000000000000000000000000000000000000000000000000000000000000000000000000000000000000000000000000000000000000000000000000000000000000,
    199999999999999999999999999999999999999999999827121731365750323099303380703100794179850015517991254788103239730069482435011136046256174925714902881041856293/100000000000000000000000000000000000000000000000000000000000000000000000000000000000000000000000000000000000000000000000000000000000000000000000000000000000,
    199999999999999999999999999999999999999999999956780432841437580774825845175775198544962503874827986233592091862739756276933302811019069380420935370551018453/100000000000000000000000000000000000000000000000000000000000000000000000000000000000000000000000000000000000000000000000000000000000000000000000000000000000,
    999999999999999999999999999999999999999999999945975541051796975968532306469718998181203129842075661709667077931619190867473040638603532240757395697000363197/500000000000000000000000000000000000000000000000000000000000000000000000000000000000000000000000000000000000000000000000000000000000000000000000000000000000,
    19999999999999999999999999999999999999999999999729877705258984879842661532348594990906015649208554157195431593537089073738998218349054780597801374392296238613/10000000000000000000000000000000000000000000000000000000000000000000000000000000000000000000000000000000000000000000000000000000000000000000000000000000000000,
    19999999999999999999999999999999999999999999999932469426314746219960665383087148747726503912302024529839301411126709338397351618034516015111575858386069491301/10000000000000000000000000000000000000000000000000000000000000000000000000000000000000000000000000000000000000000000000000000000000000000000000000000000000000,
    199999999999999999999999999999999999999999999999831173565786865549901663457717871869316259780754990068686030723280796514720005334740822737755268032558262987131/100000000000000000000000000000000000000000000000000000000000000000000000000000000000000000000000000000000000000000000000000000000000000000000000000000000000000,
    39999999999999999999999999999999999999999999999991558678289343277495083172885893593465812989037748612735398751107340115345083095357722795637467506272359865449/20000000000000000000000000000000000000000000000000000000000000000000000000000000000000000000000000000000000000000000000000000000000000000000000000000000000000,
    399999999999999999999999999999999999999999999999978896695723358193737707932214733983664532472594370975151682637107912969368384506282233025812233831054309033111/200000000000000000000000000000000000000000000000000000000000000000000000000000000000000000000000000000000000000000000000000000000000000000000000000000000000000,
    31249999999999999999999999999999999999999999999999587826088346839721439608051069023118447899855358805390233966346539133586324290981527627636560060496012221899/15625000000000000000000000000000000000000000000000000000000000000000000000000000000000000000000000000000000000000000000000000000000000000000000000000000000000,
    2499999999999999999999999999999999999999999999999991756521766936794428792161021380462368957997107176094213692651133408713743225975096566371987025552336363366159/1250000000000000000000000000000000000000000000000000000000000000000000000000000000000000000000000000000000000000000000000000000000000000000000000000000000000000,
    99999999999999999999999999999999999999999999999999917565217669367944287921610213804623689579971071760908159459821840652242474110139630698268009816379403902972787/50000000000000000000000000000000000000000000000000000000000000000000000000000000000000000000000000000000000000000000000000000000000000000000000000000000000000000,
    49999999999999999999999999999999999999999999999999989695652208670993035990201276725577961197496383970112458136643683411689841821592099619613130588324176746068751/25000000000000000000000000000000000000000000000000000000000000000000000000000000000000000000000000000000000000000000000000000000000000000000000000000000000000000,
    1999999999999999999999999999999999999999999999999999896956522086709930359902012767255779611974963839701121926876851717442297249610482610651955379286433645606043627/1000000000000000000000000000000000000000000000000000000000000000000000000000000000000000000000000000000000000000000000000000000000000000000000000000000000000000000,
    19999999999999999999999999999999999999999999999999999742391305216774825899755031918139449029937409599252803158136138595684117393647807535664778494093079037855935271/10000000000000000000000000000000000000000000000000000000000000000000000000000000000000000000000000000000000000000000000000000000000000000000000000000000000000000000,
    19999999999999999999999999999999999999999999999999999935597826304193706474938757979534862257484352399813200685843035230300927740263301946980875251390581942204035121/10000000000000000000000000000000000000000000000000000000000000000000000000000000000000000000000000000000000000000000000000000000000000000000000000000000000000000000,
    39999999999999999999999999999999999999999999999999999967798913152096853237469378989767431128742176199906600329960142687822951169113069731373522704178704993944523963/20000000000000000000000000000000000000000000000000000000000000000000000000000000000000000000000000000000000000000000000000000000000000000000000000000000000000000000,
    199999999999999999999999999999999999999999999999999999959748641440121066546836723737209288910927720249883250408399748694988841242323030526055367467249448124568938203/100000000000000000000000000000000000000000000000000000000000000000000000000000000000000000000000000000000000000000000000000000000000000000000000000000000000000000000,
    999999999999999999999999999999999999999999999999999999949685801800151333183545904671511611138659650312354063009233926598489224140694942333143729361257456056379386269/500000000000000000000000000000000000000000000000000000000000000000000000000000000000000000000000000000000000000000000000000000000000000000000000000000000000000000000,
    19999999999999999999999999999999999999999999999999999999748429009000756665917729523357558055693298251561770315044587433904637586438213654385186796840281837657732198239/10000000000000000000000000000000000000000000000000000000000000000000000000000000000000000000000000000000000000000000000000000000000000000000000000000000000000000000000,
    999999999999999999999999999999999999999999999999999999996855362612509458323971619041969475696166228144522128938052398551658568160898729875813172929359755962521137687/500000000000000000000000000000000000000000000000000000000000000000000000000000000000000000000000000000000000000000000000000000000000000000000000000000000000000000000,
    199999999999999999999999999999999999999999999999999999999842768130625472916198580952098473784808311407226106446902558122931060887175199733740637871078690710523550449463/100000000000000000000000000000000000000000000000000000000000000000000000000000000000000000000000000000000000000000000000000000000000000000000000000000000000000000000000,
    39999999999999999999999999999999999999999999999999999999992138406531273645809929047604923689240415570361305322345127133588404700347888277186406633861568321931146192037/20000000000000000000000000000000000000000000000000000000000000000000000000000000000000000000000000000000000000000000000000000000000000000000000000000000000000000000000,
    1999999999999999999999999999999999999999999999999999999999901730081640920572624113095061546115505194629516316529314086755610845179314629372640628986730959606654854492849/1000000000000000000000000000000000000000000000000000000000000000000000000000000000000000000000000000000000000000000000000000000000000000000000000000000000000000000000000,
    624999999999999999999999999999999999999999999999999999999992322662628196919736258835551683290273843330430962228852662980628889983246573113249473867390335820490916895777/312500000000000000000000000000000000000000000000000000000000000000000000000000000000000000000000000000000000000000000000000000000000000000000000000000000000000000000000,
    9999999999999999999999999999999999999999999999999999999999969290650512787678945035342206733161095373321723848915410651875362352636598910146509820197363322883184673971631/5000000000000000000000000000000000000000000000000000000000000000000000000000000000000000000000000000000000000000000000000000000000000000000000000000000000000000000000000,
    6249999999999999999999999999999999999999999999999999999999995201664142623074835161772219802056421152081519351393032914353683445439453447589044968965517784028670300870119/3125000000000000000000000000000000000000000000000000000000000000000000000000000000000000000000000000000000000000000000000000000000000000000000000000000000000000000000000,
    39999999999999999999999999999999999999999999999999999999999992322662628196919736258835551683290273843330430962228852662965156743839119463293933074168700360377141559617011/20000000000000000000000000000000000000000000000000000000000000000000000000000000000000000000000000000000000000000000000000000000000000000000000000000000000000000000000000,
    999999999999999999999999999999999999999999999999999999999999952016641426230748351617722198020564211520815193513930329143531078447644487188011239719529177105374742682332601/500000000000000000000000000000000000000000000000000000000000000000000000000000000000000000000000000000000000000000000000000000000000000000000000000000000000000000000000000,
    19999999999999999999999999999999999999999999999999999999999999760083207131153741758088610990102821057604075967569651645717653953236534924118086396105114385343145723330070857/10000000000000000000000000000000000000000000000000000000000000000000000000000000000000000000000000000000000000000000000000000000000000000000000000000000000000000000000000000,
    3999999999999999999999999999999999999999999999999999999999999988004160356557687087904430549505141052880203798378482582285882679674305652308129697274099075514860686290483641/2000000000000000000000000000000000000000000000000000000000000000000000000000000000000000000000000000000000000000000000000000000000000000000000000000000000000000000000000000,
    199999999999999999999999999999999999999999999999999999999999999850052004456971088598805381868814263161002547479731032278573533439717817235421075520516373932209831704018483319/100000000000000000000000000000000000000000000000000000000000000000000000000000000000000000000000000000000000000000000000000000000000000000000000000000000000000000000000000000,
    49999999999999999999999999999999999999999999999999999999999999990628250278560693037425336366800891447562659217483189517410845839104066648800839943541494237767396874085333923/25000000000000000000000000000000000000000000000000000000000000000000000000000000000000000000000000000000000000000000000000000000000000000000000000000000000000000000000000000,
    1999999999999999999999999999999999999999999999999999999999999999906282502785606930374253363668008914475626592174831895174108458388844924166975956244187994545184674722313786019/1000000000000000000000000000000000000000000000000000000000000000000000000000000000000000000000000000000000000000000000000000000000000000000000000000000000000000000000000000000,
    1999999999999999999999999999999999999999999999999999999999999999976570625696401732593563340917002228618906648043707973793527114597073997146679461361595314396765587804419724429/1000000000000000000000000000000000000000000000000000000000000000000000000000000000000000000000000000000000000000000000000000000000000000000000000000000000000000000000000000000,
    799999999999999999999999999999999999999999999999999999999999999997657062569640173259356334091700222861890664804370797379352711459703968867291332943673239333688294258538004391/400000000000000000000000000000000000000000000000000000000000000000000000000000000000000000000000000000000000000000000000000000000000000000000000000000000000000000000000000000,
    99999999999999999999999999999999999999999999999999999999999999999926783205301255414354885440365631964434083275136587418104772233115722223607724363923489572099725879001937886813/50000000000000000000000000000000000000000000000000000000000000000000000000000000000000000000000000000000000000000000000000000000000000000000000000000000000000000000000000000000,
    39999999999999999999999999999999999999999999999999999999999999999992678320530125541435488544036563196443408327513658741810477223311571552273394191628191478283021754985759419921/20000000000000000000000000000000000000000000000000000000000000000000000000000000000000000000000000000000000000000000000000000000000000000000000000000000000000000000000000000000,
    1999999999999999999999999999999999999999999999999999999999999999999908479006626569267943606800457039955542604093920734272630965291394642309394370380464401356891050584464385346637/1000000000000000000000000000000000000000000000000000000000000000000000000000000000000000000000000000000000000000000000000000000000000000000000000000000000000000000000000000000000,
    19999999999999999999999999999999999999999999999999999999999999999999771197516566423169859017001142599888856510234801835681577413228486604464721515316856008316198425615624958740107/10000000000000000000000000000000000000000000000000000000000000000000000000000000000000000000000000000000000000000000000000000000000000000000000000000000000000000000000000000000000,
    19999999999999999999999999999999999999999999999999999999999999999999942799379141605792464754250285649972214127558700458920394353307121651034382603164569939886797781351060239395871/10000000000000000000000000000000000000000000000000000000000000000000000000000000000000000000000000000000000000000000000000000000000000000000000000000000000000000000000000000000000,
    39999999999999999999999999999999999999999999999999999999999999999999971399689570802896232377125142824986107063779350229460197176653560825506966579624204462169367412543924369661791/20000000000000000000000000000000000000000000000000000000000000000000000000000000000000000000000000000000000000000000000000000000000000000000000000000000000000000000000000000000000,
    199999999999999999999999999999999999999999999999999999999999999999999964249611963503620290471406428531232633829724187786825246470816951031880512998918355419032324428763778665190943/100000000000000000000000000000000000000000000000000000000000000000000000000000000000000000000000000000000000000000000000000000000000000000000000000000000000000000000000000000000000,
    1999999999999999999999999999999999999999999999999999999999999999999999910624029908759050726178516071328081584574310469467063116177042377579699285481288450948406195548836867414923423/1000000000000000000000000000000000000000000000000000000000000000000000000000000000000000000000000000000000000000000000000000000000000000000000000000000000000000000000000000000000000,
    624999999999999999999999999999999999999999999999999999999999999999999993017502336621800837982696568072506373794868005427114305951331435748413967674006764964735354817817868953352339/312500000000000000000000000000000000000000000000000000000000000000000000000000000000000000000000000000000000000000000000000000000000000000000000000000000000000000000000000000000000,
    3999999999999999999999999999999999999999999999999999999999999999999999988828003738594881340772314508916010198071788808683382889522130297197462332676723265837333016024734585799988321/2000000000000000000000000000000000000000000000000000000000000000000000000000000000000000000000000000000000000000000000000000000000000000000000000000000000000000000000000000000000000,
    9999999999999999999999999999999999999999999999999999999999999999999999993017502336621800837982696568072506373794868005427114305951331435748413955485188360194232580064869427917902791/5000000000000000000000000000000000000000000000000000000000000000000000000000000000000000000000000000000000000000000000000000000000000000000000000000000000000000000000000000000000000,
    12499999999999999999999999999999999999999999999999999999999999999999999997817969480194312761869592677522658241810896251695973220609791073671379360898671074986158575414756876833165723/6250000000000000000000000000000000000000000000000000000000000000000000000000000000000000000000000000000000000000000000000000000000000000000000000000000000000000000000000000000000000,
    249999999999999999999999999999999999999999999999999999999999999999999999989089847400971563809347963387613291209054481258479866103048955368356896804255292515462618994754390859926854991/125000000000000000000000000000000000000000000000000000000000000000000000000000000000000000000000000000000000000000000000000000000000000000000000000000000000000000000000000000000000000,
    199999999999999999999999999999999999999999999999999999999999999999999999997817969480194312761869592677522658241810896251695973220609791073671379360839155360119115104834908495773422317/100000000000000000000000000000000000000000000000000000000000000000000000000000000000000000000000000000000000000000000000000000000000000000000000000000000000000000000000000000000000000,
    19999999999999999999999999999999999999999999999999999999999999999999999999945449237004857819046739816938066456045272406292399330515244776841784484020904489359394073282647901918010878667/10000000000000000000000000000000000000000000000000000000000000000000000000000000000000000000000000000000000000000000000000000000000000000000000000000000000000000000000000000000000000000,
    199999999999999999999999999999999999999999999999999999999999999999999999999863623092512144547616849542345166140113181015730998326288111942104461210052214726746245305495229248247324272131/100000000000000000000000000000000000000000000000000000000000000000000000000000000000000000000000000000000000000000000000000000000000000000000000000000000000000000000000000000000000000000,
    199999999999999999999999999999999999999999999999999999999999999999999999999965905773128036136904212385586291535028295253932749581572027985526115302513050775645796334016845405402599635249/100000000000000000000000000000000000000000000000000000000000000000000000000000000000000000000000000000000000000000000000000000000000000000000000000000000000000000000000000000000000000000,
    249999999999999999999999999999999999999999999999999999999999999999999999999989345554102511292782566370495716104696342266853984244241258745476911032035328140354876589352376540230559930329/125000000000000000000000000000000000000000000000000000000000000000000000000000000000000000000000000000000000000000000000000000000000000000000000000000000000000000000000000000000000000000,
    4999999999999999999999999999999999999999999999999999999999999999999999999999946727770512556463912831852478580523481711334269921221206293727384555160176640417981339490477023139955609082037/2500000000000000000000000000000000000000000000000000000000000000000000000000000000000000000000000000000000000000000000000000000000000000000000000000000000000000000000000000000000000000000,
    3999999999999999999999999999999999999999999999999999999999999999999999999999989345554102511292782566370495716104696342266853984244241258745476911032035328069406615725281161649931262287927/2000000000000000000000000000000000000000000000000000000000000000000000000000000000000000000000000000000000000000000000000000000000000000000000000000000000000000000000000000000000000000000,
    99999999999999999999999999999999999999999999999999999999999999999999999999999933409713140695579891039815598225654352139167837401526507867159230693950220800411620016762985005658851858786293/50000000000000000000000000000000000000000000000000000000000000000000000000000000000000000000000000000000000000000000000000000000000000000000000000000000000000000000000000000000000000000000,
    19999999999999999999999999999999999999999999999999999999999999999999999999999996670485657034778994551990779911282717606958391870076325393357961534697511040020303859194148972099777361307899/10000000000000000000000000000000000000000000000000000000000000000000000000000000000000000000000000000000000000000000000000000000000000000000000000000000000000000000000000000000000000000000,
    1999999999999999999999999999999999999999999999999999999999999999999999999999999916762141425869474863799769497782067940173959796751908134833949038367437776000505864344578722563849651335001127/1000000000000000000000000000000000000000000000000000000000000000000000000000000000000000000000000000000000000000000000000000000000000000000000000000000000000000000000000000000000000000000000,
    99999999999999999999999999999999999999999999999999999999999999999999999999999998959526767823368435797497118722275849252174497459398851685424362979592972200006317891384499651614855695757213/50000000000000000000000000000000000000000000000000000000000000000000000000000000000000000000000000000000000000000000000000000000000000000000000000000000000000000000000000000000000000000000,
    9999999999999999999999999999999999999999999999999999999999999999999999999999999973988169195584210894937427968056896231304362436484971292135609074489824305000157913453845401412663486481865943/5000000000000000000000000000000000000000000000000000000000000000000000000000000000000000000000000000000000000000000000000000000000000000000000000000000000000000000000000000000000000000000000,
    199999999999999999999999999999999999999999999999999999999999999999999999999999999869940845977921054474687139840284481156521812182424856460678045372449121525000789524980768144716182550019249237/100000000000000000000000000000000000000000000000000000000000000000000000000000000000000000000000000000000000000000000000000000000000000000000000000000000000000000000000000000000000000000000000,
    999999999999999999999999999999999999999999999999999999999999999999999999999999999837426057472401318093358924800355601445652265228031070575847556715561401906250986893010816786411748536777161397/500000000000000000000000000000000000000000000000000000000000000000000000000000000000000000000000000000000000000000000000000000000000000000000000000000000000000000000000000000000000000000000000,
    1999999999999999999999999999999999999999999999999999999999999999999999999999999999918713028736200659046679462400177800722826132614015535287923778357780700953125493444853515468895439312045218179/1000000000000000000000000000000000000000000000000000000000000000000000000000000000000000000000000000000000000000000000000000000000000000000000000000000000000000000000000000000000000000000000000,
    19999999999999999999999999999999999999999999999999999999999999999999999999999999999796782571840501647616698656000444501807065331535038838219809445894451752382813733611101355594544576432398443873/10000000000000000000000000000000000000000000000000000000000000000000000000000000000000000000000000000000000000000000000000000000000000000000000000000000000000000000000000000000000000000000000000,
    19999999999999999999999999999999999999999999999999999999999999999999999999999999999949195642960125411904174664000111125451766332883759709554952361473612938095703433402710811831280267742617448369/10000000000000000000000000000000000000000000000000000000000000000000000000000000000000000000000000000000000000000000000000000000000000000000000000000000000000000000000000000000000000000000000000,
    99999999999999999999999999999999999999999999999999999999999999999999999999999999999936494553700156764880218330000138906814707916104699636943690451842016172619629291753368350080551623314058634649/50000000000000000000000000000000000000000000000000000000000000000000000000000000000000000000000000000000000000000000000000000000000000000000000000000000000000000000000000000000000000000000000000,
    49999999999999999999999999999999999999999999999999999999999999999999999999999999999992061819212519595610027291250017363351838489513087454617961306480252021577453661469170413612926805684125667587/25000000000000000000000000000000000000000000000000000000000000000000000000000000000000000000000000000000000000000000000000000000000000000000000000000000000000000000000000000000000000000000000000,
    1999999999999999999999999999999999999999999999999999999999999999999999999999999999999920618192125195956100272912500173633518384895130874546179613064802520215774536614691702560761412688765927521509/1000000000000000000000000000000000000000000000000000000000000000000000000000000000000000000000000000000000000000000000000000000000000000000000000000000000000000000000000000000000000000000000000000,
    19999999999999999999999999999999999999999999999999999999999999999999999999999999999999801545480312989890250682281250434083795962237827186365449032662006300539436341536729255417298622116867738082297/10000000000000000000000000000000000000000000000000000000000000000000000000000000000000000000000000000000000000000000000000000000000000000000000000000000000000000000000000000000000000000000000000000,
    9999999999999999999999999999999999999999999999999999999999999999999999999999999999999975193185039123736281335285156304260474495279728398295681129082750787567429542692091156896393424339450745987741/5000000000000000000000000000000000000000000000000000000000000000000000000000000000000000000000000000000000000000000000000000000000000000000000000000000000000000000000000000000000000000000000000000,
    99999999999999999999999999999999999999999999999999999999999999999999999999999999999999937982962597809340703338212890760651186238199320995739202822706876968918573856730227892221752996207903289174011/50000000000000000000000000000000000000000000000000000000000000000000000000000000000000000000000000000000000000000000000000000000000000000000000000000000000000000000000000000000000000000000000000000,
    999999999999999999999999999999999999999999999999999999999999999999999999999999999999999844957406494523351758345532226901627965595498302489348007056767192422296434641825569730542363387619305988062939/500000000000000000000000000000000000000000000000000000000000000000000000000000000000000000000000000000000000000000000000000000000000000000000000000000000000000000000000000000000000000000000000000000,
    999999999999999999999999999999999999999999999999999999999999999999999999999999999999999961239351623630837939586383056725406991398874575622337001764191798105574108660456392432634839652973548232336229/500000000000000000000000000000000000000000000000000000000000000000000000000000000000000000000000000000000000000000000000000000000000000000000000000000000000000000000000000000000000000000000000000000,
    19999999999999999999999999999999999999999999999999999999999999999999999999999999999999999806196758118154189697931915283627034956994372878111685008820958990527870543302281962163173259272453643330831763/10000000000000000000000000000000000000000000000000000000000000000000000000000000000000000000000000000000000000000000000000000000000000000000000000000000000000000000000000000000000000000000000000000000,
    9999999999999999999999999999999999999999999999999999999999999999999999999999999999999999975774594764769273712241489410453379369624296609763960626102619873815983817912785245270396628065543764859139927/5000000000000000000000000000000000000000000000000000000000000000000000000000000000000000000000000000000000000000000000000000000000000000000000000000000000000000000000000000000000000000000000000000000,
    199999999999999999999999999999999999999999999999999999999999999999999999999999999999999999878872973823846368561207447052266896848121483048819803130513099369079919089563926226351983103648327648599182081/100000000000000000000000000000000000000000000000000000000000000000000000000000000000000000000000000000000000000000000000000000000000000000000000000000000000000000000000000000000000000000000000000000000,
    1999999999999999999999999999999999999999999999999999999999999999999999999999999999999999999697182434559615921403018617630667242120303707622049507826282748422699797723909815565879957736196199636687631731/1000000000000000000000000000000000000000000000000000000000000000000000000000000000000000000000000000000000000000000000000000000000000000000000000000000000000000000000000000000000000000000000000000000000,
    399999999999999999999999999999999999999999999999999999999999999999999999999999999999999999984859121727980796070150930881533362106015185381102475391314137421134989886195490778293997886523252238274252543/200000000000000000000000000000000000000000000000000000000000000000000000000000000000000000000000000000000000000000000000000000000000000000000000000000000000000000000000000000000000000000000000000000000,
    9999999999999999999999999999999999999999999999999999999999999999999999999999999999999999999905369510799879975438443318009583513162594908631890471195713358882093686788721817364337486790322580014901376763/5000000000000000000000000000000000000000000000000000000000000000000000000000000000000000000000000000000000000000000000000000000000000000000000000000000000000000000000000000000000000000000000000000000000,
    19999999999999999999999999999999999999999999999999999999999999999999999999999999999999999999952684755399939987719221659004791756581297454315945235597856679441046843394360908682168743395105321698161600677/10000000000000000000000000000000000000000000000000000000000000000000000000000000000000000000000000000000000000000000000000000000000000000000000000000000000000000000000000000000000000000000000000000000000,
    199999999999999999999999999999999999999999999999999999999999999999999999999999999999999999999881711888499849969298054147511979391453243635789863088994641698602617108485902271705421858487728324052098321877/100000000000000000000000000000000000000000000000000000000000000000000000000000000000000000000000000000000000000000000000000000000000000000000000000000000000000000000000000000000000000000000000000000000000,
    249999999999999999999999999999999999999999999999999999999999999999999999999999999999999999999963034965156203115405641921097493559829138636184332215310825530813317846401844459907944330777412368438678719351/125000000000000000000000000000000000000000000000000000000000000000000000000000000000000000000000000000000000000000000000000000000000000000000000000000000000000000000000000000000000000000000000000000000000,
    15624999999999999999999999999999999999999999999999999999999999999999999999999999999999999999999422421330565673678213155017148336872330291190380190864231648918958091350028819686061630168397057581746534653/7812500000000000000000000000000000000000000000000000000000000000000000000000000000000000000000000000000000000000000000000000000000000000000000000000000000000000000000000000000000000000000000000000000000,
    19999999999999999999999999999999999999999999999999999999999999999999999999999999999999999999999815174825781015577028209605487467799145693180921661076554127654066589232009222299539721653887057572150265462011/10000000000000000000000000000000000000000000000000000000000000000000000000000000000000000000000000000000000000000000000000000000000000000000000000000000000000000000000000000000000000000000000000000000000000,
    9999999999999999999999999999999999999999999999999999999999999999999999999999999999999999999999976896853222626947128526200685933474893211647615207634569265956758323654001152787442465206735882169831013631909/5000000000000000000000000000000000000000000000000000000000000000000000000000000000000000000000000000000000000000000000000000000000000000000000000000000000000000000000000000000000000000000000000000000000000,
    3124999999999999999999999999999999999999999999999999999999999999999999999999999999999999999999998195066658017730244416109428588552726032159969938096450723902871744035468840061518942594276240793996802440953/1562500000000000000000000000000000000000000000000000000000000000000000000000000000000000000000000000000000000000000000000000000000000000000000000000000000000000000000000000000000000000000000000000000000000,
    499999999999999999999999999999999999999999999999999999999999999999999999999999999999999999999999927802666320709209776644377143542109041286398797523858028956114869761418753602460757703771049631754659642647721/250000000000000000000000000000000000000000000000000000000000000000000000000000000000000000000000000000000000000000000000000000000000000000000000000000000000000000000000000000000000000000000000000000000000000,
    1999999999999999999999999999999999999999999999999999999999999999999999999999999999999999999999999927802666320709209776644377143542109041286398797523858028956114869761418753602460757703771049631753356528900121/1000000000000000000000000000000000000000000000000000000000000000000000000000000000000000000000000000000000000000000000000000000000000000000000000000000000000000000000000000000000000000000000000000000000000000,
    4999999999999999999999999999999999999999999999999999999999999999999999999999999999999999999999999954876666450443256110402735714713818150803999248452411268097571793600886721001537973564856906019845644219039513/2500000000000000000000000000000000000000000000000000000000000000000000000000000000000000000000000000000000000000000000000000000000000000000000000000000000000000000000000000000000000000000000000000000000000000,
    19999999999999999999999999999999999999999999999999999999999999999999999999999999999999999999999999954876666450443256110402735714713818150803999248452411268097571793600886721001537973564856906019845593316158747/10000000000000000000000000000000000000000000000000000000000000000000000000000000000000000000000000000000000000000000000000000000000000000000000000000000000000000000000000000000000000000000000000000000000000000,
    49999999999999999999999999999999999999999999999999999999999999999999999999999999999999999999999999971797916531527035069001709821696136344252499530282757042560982371000554200625961233478035566262403487869024097/25000000000000000000000000000000000000000000000000000000000000000000000000000000000000000000000000000000000000000000000000000000000000000000000000000000000000000000000000000000000000000000000000000000000000000,
    199999999999999999999999999999999999999999999999999999999999999999999999999999999999999999999999999971797916531527035069001709821696136344252499530282757042560982371000554200625961233478035566262403485880630317/100000000000000000000000000000000000000000000000000000000000000000000000000000000000000000000000000000000000000000000000000000000000000000000000000000000000000000000000000000000000000000000000000000000000000000,
    24999999999999999999999999999999999999999999999999999999999999999999999999999999999999999999999999999118684891610219845906303431928004260757890610321336157580030699093767318769561288546188611445700108918235371/12500000000000000000000000000000000000000000000000000000000000000000000000000000000000000000000000000000000000000000000000000000000000000000000000000000000000000000000000000000000000000000000000000000000000000,
    19999999999999999999999999999999999999999999999999999999999999999999999999999999999999999999999999999823736978322043969181260686385600852151578122064267231516006139818753463753912257709237722289140021782870357879/10000000000000000000000000000000000000000000000000000000000000000000000000000000000000000000000000000000000000000000000000000000000000000000000000000000000000000000000000000000000000000000000000000000000000000000,
    19999999999999999999999999999999999999999999999999999999999999999999999999999999999999999999999999999955934244580510992295315171596400213037894530516066807879001534954688365938478064427309430572285005445669044699/10000000000000000000000000000000000000000000000000000000000000000000000000000000000000000000000000000000000000000000000000000000000000000000000000000000000000000000000000000000000000000000000000000000000000000000,
    99999999999999999999999999999999999999999999999999999999999999999999999999999999999999999999999999999944917805725638740369143964495500266297368163145083509848751918693360457423097580534136788215356256807071135633/50000000000000000000000000000000000000000000000000000000000000000000000000000000000000000000000000000000000000000000000000000000000000000000000000000000000000000000000000000000000000000000000000000000000000000000,
    499999999999999999999999999999999999999999999999999999999999999999999999999999999999999999999999999999931147257157048425461429955619375332871710203931354387310939898366700571778871975667670985269195321008834178841/250000000000000000000000000000000000000000000000000000000000000000000000000000000000000000000000000000000000000000000000000000000000000000000000000000000000000000000000000000000000000000000000000000000000000000000,
    399999999999999999999999999999999999999999999999999999999999999999999999999999999999999999999999999999986229451431409685092285991123875066574342040786270877462187979673340114355774395133534197053839064201766598733/200000000000000000000000000000000000000000000000000000000000000000000000000000000000000000000000000000000000000000000000000000000000000000000000000000000000000000000000000000000000000000000000000000000000000000000,
    4999999999999999999999999999999999999999999999999999999999999999999999999999999999999999999999999999999956967035723155265913393722262109583044818877457096492069337436479187857361794984792294365793247075630520435857/2500000000000000000000000000000000000000000000000000000000000000000000000000000000000000000000000000000000000000000000000000000000000000000000000000000000000000000000000000000000000000000000000000000000000000000000,
    19999999999999999999999999999999999999999999999999999999999999999999999999999999999999999999999999999999956967035723155265913393722262109583044818877457096492069337436479187857361794984792294365793247075630520389561/10000000000000000000000000000000000000000000000000000000000000000000000000000000000000000000000000000000000000000000000000000000000000000000000000000000000000000000000000000000000000000000000000000000000000000000000,
    199999999999999999999999999999999999999999999999999999999999999999999999999999999999999999999999999999999892417589307888164783484305655273957612047193642741230173343591197969643404487461980735914483117689076300944967/100000000000000000000000000000000000000000000000000000000000000000000000000000000000000000000000000000000000000000000000000000000000000000000000000000000000000000000000000000000000000000000000000000000000000000000000,
    1999999999999999999999999999999999999999999999999999999999999999999999999999999999999999999999999999999999731043973269720411958710764138184894030117984106853075433358977994924108511218654951839786207794222690752344333/1000000000000000000000000000000000000000000000000000000000000000000000000000000000000000000000000000000000000000000000000000000000000000000000000000000000000000000000000000000000000000000000000000000000000000000000000]

/-- C1 as stated is false: at `digits = 1` the returned value is 3, and
`|3 − π| ≈ 0.1416` is not less than `10^-1`. -/
theorem gauss_legendre_pi_accuracy_cex :
    gauss_legendre_pi pyDefaultContext 1 12 = .ok (some ⟨3, 1⟩)
    ∧ ¬ (|(((⟨3, 1⟩ : Dec).val : ℚ) : ℝ) - Real.pi| < 1 / 10 ^ 1) := by
  constructor
  · decide
  · have hv : (((⟨3, 1⟩ : Dec).val : ℚ) : ℝ) = 3 := by norm_num [Dec.val]
    rw [hv, not_lt, abs_sub_comm, le_abs]
    left
    linarith [pi_gt_big]

/-- C1 amended: for every `digits` in `{1, 5, 10, 50, 100}` the value
returned by `gauss_legendre_pi digits` differs from π by strictly less than
`10^-(digits−1)` (the bound `10^-digits` of the original claim holds for 5,
50 and 100 but fails for 1 and 10). -/
theorem gauss_legendre_pi_accuracy :
    (gauss_legendre_pi pyDefaultContext 1 12 = .ok (some ⟨3, 1⟩)
      ∧ |(((⟨3, 1⟩ : Dec).val : ℚ) : ℝ) - Real.pi| < 1 / 10 ^ 0)
    ∧ (gauss_legendre_pi pyDefaultContext 5 12 = .ok (some ⟨31416, pow10 4⟩)
      ∧ |(((⟨31416, pow10 4⟩ : Dec).val : ℚ) : ℝ) - Real.pi| < 1 / 10 ^ 4)
    ∧ (gauss_legendre_pi pyDefaultContext 10 20 = .ok (some ⟨3141592654, pow10 9⟩)
      ∧ |(((⟨3141592654, pow10 9⟩ : Dec).val : ℚ) : ℝ) - Real.pi| < 1 / 10 ^ 9)
    ∧ (gauss_legendre_pi pyDefaultContext 50 20 =
        .ok (some ⟨31415926535897932384626433832795028841971693993751, pow10 49⟩)
      ∧ |(((⟨31415926535897932384626433832795028841971693993751, pow10 49⟩ : Dec).val : ℚ) : ℝ) -
          Real.pi| < 1 / 10 ^ 49)
    ∧ (gauss_legendre_pi pyDefaultContext 100 20 =
        .ok (some ⟨3141592653589793238462643383279502884197169399375105820974944592307816406286208998628034825342117068, pow10 99⟩)
      ∧ |(((⟨3141592653589793238462643383279502884197169399375105820974944592307816406286208998628034825342117068, pow10 99⟩ : Dec).val : ℚ) : ℝ) -
          Real.pi| < 1 / 10 ^ 99) := by
  refine ⟨⟨by decide, ?_⟩, ⟨by decide, ?_⟩, ⟨by decide, ?_⟩, ⟨by decide, ?_⟩, ⟨by decide, ?_⟩⟩
  · have hv : (((⟨3, 1⟩ : Dec).val : ℚ) : ℝ) = 3 := by norm_num [Dec.val]
    rw [hv, abs_sub_lt_iff]
    constructor <;> linarith [pi_gt_big, pi_lt_big]
  · have hv : (((⟨31416, pow10 4⟩ : Dec).val : ℚ) : ℝ) = 31416 / 10 ^ 4 := by
      norm_num [Dec.val, pow10]
    rw [hv, abs_sub_lt_iff]
    constructor <;> linarith [pi_gt_big, pi_lt_big]
  · have hv : (((⟨3141592654, pow10 9⟩ : Dec).val : ℚ) : ℝ) = 3141592654 / 10 ^ 9 := by
      norm_num [Dec.val, pow10]
    rw [hv, abs_sub_lt_iff]
    constructor <;> linarith [pi_gt_big, pi_lt_big]
  · have hv : (((⟨31415926535897932384626433832795028841971693993751, pow10 49⟩ : Dec).val : ℚ) : ℝ) =
        31415926535897932384626433832795028841971693993751 / 10 ^ 49 := by
      norm_num [Dec.val, pow10]
    rw [hv, abs_sub_lt_iff]
    constructor <;> linarith [pi_gt_big, pi_lt_big]
  · have hv : (((⟨3141592653589793238462643383279502884197169399375105820974944592307816406286208998628034825342117068, pow10 99⟩ : Dec).val : ℚ) : ℝ) =
        3141592653589793238462643383279502884197169399375105820974944592307816406286208998628034825342117068 / 10 ^ 99 := by
      norm_num [Dec.val, pow10]
    rw [hv, abs_sub_lt_iff]
    constructor <;> linarith [pi_gt_big, pi_lt_big]

/-- C7 as stated is false: `gauss_legendre_pi 15` returns
`3.14159265358979` (15 significant digits, 14 digits after the decimal
point), whose value is below `3.141592653589793`, so its first 15 digits
after the decimal point are not `141592653589793`. -/
theorem gauss_legendre_pi_fifteen_prefix_cex :
    gauss_legendre_pi pyDefaultContext 15 20 = .ok (some ⟨314159265358979, pow10 14⟩)
    ∧ ¬ ((3141592653589793 : ℚ) / 10 ^ 15 ≤ (⟨314159265358979, pow10 14⟩ : Dec).val
         ∧ (⟨314159265358979, pow10 14⟩ : Dec).val < (3141592653589794 : ℚ) / 10 ^ 15) := by
  constructor
  · decide
  · rintro ⟨hlo, _⟩
    have hv : (⟨314159265358979, pow10 14⟩ : Dec).val = (314159265358979 : ℚ) / 10 ^ 14 := by
      norm_num [Dec.val, pow10]
    rw [hv] at hlo
    norm_num at hlo

/-- C7 amended: `gauss_legendre_pi 15` returns exactly `3.14159265358979`
(π correctly rounded to 15 significant digits, so 14 digits after the
decimal point, all matching π), within `10^-14` of π. -/
theorem gauss_legendre_pi_fifteen_digits :
    gauss_legendre_pi pyDefaultContext 15 20 = .ok (some ⟨314159265358979, pow10 14⟩)
    ∧ (⟨314159265358979, pow10 14⟩ : Dec).val = 314159265358979 / 10 ^ 14
    ∧ |(((⟨314159265358979, pow10 14⟩ : Dec).val : ℚ) : ℝ) - Real.pi| < 1 / 10 ^ 14 := by
  refine ⟨by decide, by norm_num [Dec.val, pow10], ?_⟩
  have hv : (((⟨314159265358979, pow10 14⟩ : Dec).val : ℚ) : ℝ) = 314159265358979 / 10 ^ 14 := by
    norm_num [Dec.val, pow10]
  rw [hv, abs_sub_lt_iff]
  constructor <;> linarith [pi_gt_big, pi_lt_big]

/-- Closed instances of `gauss_legendre_pi_invalid_argument` at
`digits = -3` and `digits = 1`. -/
theorem gauss_legendre_pi_invalid_argument_witness :
    ((-3 : ℤ) < 1
      ∧ gauss_legendre_pi pyDefaultContext (-3) 5 = .error "digits must be a positive integer")
    ∧ ((1 : ℤ) ≤ 1 ∧ ∃ r : Option Dec, gauss_legendre_pi pyDefaultContext 1 5 = .ok r) :=
  ⟨⟨by norm_num, (gauss_legendre_pi_invalid_argument pyDefaultContext (-3) 5).1 (by norm_num)⟩,
   ⟨le_refl 1, (gauss_legendre_pi_invalid_argument pyDefaultContext 1 5).2.2.1 (by norm_num)⟩⟩
